import Mathlib

/-!
Shallow embedding of the Japanese verb conjugation engine of the kana-dojo
repository (feature `Conjugator`): core types (`types.ts`), classification
data (`data/verbData.ts`), the classifier (`lib/engine/classifyVerb.ts`),
the three form generators (`conjugateGodan.ts`, `conjugateIchidan.ts`,
`conjugateIrregular.ts`), the facade (`lib/engine/conjugate.ts`) and the
serialization helpers (`types.ts`), together with theorems settling the
frozen claims about them.

Modelling conventions: JavaScript strings are modelled as Lean `String`
(lists of characters).  Every input that reaches the classifier has passed
the `isJapanese` character filter, which admits only basic-multilingual-plane
characters, so UTF-16 code units and code points coincide on all relevant
strings and character-indexed JS operations (`slice`, `length`, `charCodeAt`)
are faithfully rendered by character-list operations.  TypeScript
`Record<string, T>` lookup tables are rendered as Lean functions returning
`Option T` by literal comparison, and functions that `throw` are rendered
with `Option` and `Except` result types (the facade `conjugate` catches every
throw and converts it to an error value, preserving the error code carried in
the message prefix, so carrying the code in the `Except` error directly is
behaviourally identical).  `Date.now()` is the single impure call in the
engine; the timestamp it produces is passed to `conjugate` as an explicit
`now` argument.
-/

namespace KanaDojo

-- ===========================================================================
-- Core types, from src/features/Conjugator/types.ts
-- ===========================================================================

/-- Verb classification, types.ts: `type VerbType = 'godan' | 'ichidan' | 'irregular'`. -/
inductive VerbType where
  | godan
  | ichidan
  | irregular
deriving DecidableEq

/-- Irregular subtypes, types.ts: `type IrregularType = 'suru' | 'kuru' | 'aru' | 'iku' | 'honorific'`. -/
inductive IrregularType where
  | suru
  | kuru
  | aru
  | iku
  | honorific
deriving DecidableEq

/-- Classification result, types.ts `interface VerbInfo`. -/
structure VerbInfo where
  dictionaryForm : String
  reading : String
  romaji : String
  type : VerbType
  stem : String
  ending : String
  irregularType : Option IrregularType := none
  compoundPrefix : Option String := none
deriving DecidableEq

/-- Form categories, types.ts `type ConjugationCategory` (14 values). -/
inductive ConjugationCategory where
  | basic
  | polite
  | negative
  | past
  | volitional
  | potential
  | passive
  | causative
  | causativePassive
  | imperative
  | conditional
  | taiForm
  | progressive
  | honorific
deriving DecidableEq

/-- Formality tag, types.ts: `type Formality = 'plain' | 'polite'`. -/
inductive Formality where
  | plain
  | polite
deriving DecidableEq

/-- One conjugated form, types.ts `interface ConjugationForm`. -/
structure ConjugationForm where
  id : String
  name : String
  nameJapanese : String
  kanji : String
  hiragana : String
  romaji : String
  formality : Formality
  category : ConjugationCategory
deriving DecidableEq

/-- Aggregate result, types.ts `interface ConjugationResult`. -/
structure ConjugationResult where
  verb : VerbInfo
  forms : List ConjugationForm
  timestamp : Nat
deriving DecidableEq

/-- Static form catalogue entry, types.ts `interface FormDefinition`. -/
structure FormDefinition where
  id : String
  category : ConjugationCategory
  name : String
  nameJa : String
  formality : Formality
deriving DecidableEq

/-- Godan vowel-grade table row, types.ts `interface GodanConjugationMap`. -/
structure GodanConjugationMap where
  a : String
  i : String
  e : String
  o : String
  te : String
  ta : String
deriving DecidableEq

/-- Error codes, types.ts `type ConjugationErrorCode`. -/
inductive ConjugationErrorCode where
  | EMPTY_INPUT
  | INVALID_CHARACTERS
  | UNKNOWN_VERB
  | AMBIGUOUS_VERB
  | CONJUGATION_FAILED
deriving DecidableEq

/-- Tagged error, types.ts `interface ConjugationError`. -/
structure ConjugationError where
  code : ConjugationErrorCode
  message : String
deriving DecidableEq

-- ===========================================================================
-- JavaScript string primitives used by the engine
-- ===========================================================================

/-- Characters stripped by JavaScript `String.prototype.trim` (ECMA-262
WhiteSpace and LineTerminator). -/
def JS_WHITESPACE : List Char :=
  ['\t', '\n', '\x0b', '\x0c', '\r', ' ', ' ', ' ', ' ',
   ' ', ' ', ' ', ' ', ' ', ' ', ' ',
   ' ', ' ', ' ', ' ', ' ', ' ', ' ',
   '　', '﻿']

/-- Membership in the JS trim character set. -/
def isJsWhitespace (c : Char) : Bool := JS_WHITESPACE.contains c

/-- JavaScript `s.trim()`. -/
def jsTrim (s : String) : String :=
  String.mk (((s.data.dropWhile isJsWhitespace).reverse.dropWhile isJsWhitespace).reverse)

/-- JavaScript `s.slice(-1)`: classifyVerb.ts local `getLastChar`. -/
def getLastChar (str : String) : String :=
  String.mk (str.data.drop (str.data.length - 1))

/-- JavaScript `s.slice(0, -1)`: classifyVerb.ts local `getStem`. -/
def getStem (str : String) : String :=
  String.mk (str.data.take (str.data.length - 1))

/-- JavaScript `s.slice(n)` for `0 ≤ n`. -/
def jsDropChars (s : String) (n : Nat) : String := String.mk (s.data.drop n)

/-- JavaScript `s.slice(0, s.length - n)` for a suffix of length `n`
(`verb.slice(0, -suffix.length)` in the compound detectors). -/
def jsDropLastChars (s : String) (n : Nat) : String :=
  String.mk (s.data.take (s.data.length - n))

/-- JavaScript `s.slice(-2, -1)`: the second-to-last character (classifyVerb.ts). -/
def secondLastChar (str : String) : String :=
  String.mk ((str.data.drop (str.data.length - 2)).take 1)

/-- JavaScript `s.endsWith(pat)`. -/
def jsEndsWith (s pat : String) : Bool := decide (pat.data <:+ s.data)

-- ===========================================================================
-- Character classes, from classifyVerb.ts
-- ===========================================================================

/-- classifyVerb.ts `isHiragana` (`charCodeAt(0)` between 0x3040 and 0x309f),
stated on the character itself; the source receives one-character strings. -/
def isHiragana (c : Char) : Bool := 0x3040 ≤ c.toNat && c.toNat ≤ 0x309f

/-- classifyVerb.ts `isKatakana` (0x30a0 to 0x30ff). -/
def isKatakana (c : Char) : Bool := 0x30a0 ≤ c.toNat && c.toNat ≤ 0x30ff

/-- classifyVerb.ts `isKanji` (CJK Unified Ideographs and Extension A). -/
def isKanji (c : Char) : Bool :=
  (0x4e00 ≤ c.toNat && c.toNat ≤ 0x9faf) || (0x3400 ≤ c.toNat && c.toNat ≤ 0x4dbf)

/-- classifyVerb.ts `isJapanese`: every character is hiragana, katakana or
kanji, and the string is non-empty. -/
def isJapanese (str : String) : Bool :=
  str.data.all (fun c => isHiragana c || isKatakana c || isKanji c) && !str.data.isEmpty

-- ===========================================================================
-- Classification data, from src (data/verbData.ts); the claims cite the
-- copy concatenated into src/features/Conjugator/store/useConjugatorStore.ts
-- ===========================================================================

/-- Key-value entries of the verbData.ts `IRREGULAR_VERBS` record, in
declaration order. -/
def IRREGULAR_VERBS_TABLE : List (String × IrregularType) :=
  [("する", .suru),
   ("来る", .kuru), ("くる", .kuru),
   ("ある", .aru),
   ("行く", .iku), ("いく", .iku),
   ("くださる", .honorific), ("なさる", .honorific), ("いらっしゃる", .honorific),
   ("おっしゃる", .honorific), ("ござる", .honorific)]

/-- verbData.ts `IRREGULAR_VERBS` record, as a lookup function. -/
def IRREGULAR_VERBS (verb : String) : Option IrregularType :=
  (IRREGULAR_VERBS_TABLE.find? (fun kv => kv.1 == verb)).map (fun kv => kv.2)

/-- verbData.ts `SURU_COMPOUND_SUFFIXES`. -/
def SURU_COMPOUND_SUFFIXES : List String := ["する"]

/-- verbData.ts `KURU_COMPOUND_SUFFIXES`. -/
def KURU_COMPOUND_SUFFIXES : List String := ["くる", "来る"]

/-- Key-value entries of the verbData.ts `GODAN_ENDINGS` record, in
declaration order. -/
def GODAN_ENDINGS_TABLE : List (String × GodanConjugationMap) :=
  [("う", { a := "わ", i := "い", e := "え", o := "お", te := "って", ta := "った" }),
   ("く", { a := "か", i := "き", e := "け", o := "こ", te := "いて", ta := "いた" }),
   ("ぐ", { a := "が", i := "ぎ", e := "げ", o := "ご", te := "いで", ta := "いだ" }),
   ("す", { a := "さ", i := "し", e := "せ", o := "そ", te := "して", ta := "した" }),
   ("つ", { a := "た", i := "ち", e := "て", o := "と", te := "って", ta := "った" }),
   ("ぬ", { a := "な", i := "に", e := "ね", o := "の", te := "んで", ta := "んだ" }),
   ("ぶ", { a := "ば", i := "び", e := "べ", o := "ぼ", te := "んで", ta := "んだ" }),
   ("む", { a := "ま", i := "み", e := "め", o := "も", te := "んで", ta := "んだ" }),
   ("る", { a := "ら", i := "り", e := "れ", o := "ろ", te := "って", ta := "った" })]

/-- verbData.ts `GODAN_ENDINGS` record, as a lookup function. -/
def GODAN_ENDINGS (ending : String) : Option GodanConjugationMap :=
  (GODAN_ENDINGS_TABLE.find? (fun kv => kv.1 == ending)).map (fun kv => kv.2)

/-- verbData.ts `GODAN_ENDING_CHARS = Object.keys(GODAN_ENDINGS)`. -/
def GODAN_ENDING_CHARS : List String := GODAN_ENDINGS_TABLE.map (fun kv => kv.1)

/-- verbData.ts `ICHIDAN_PRECEDING_CHARS` (i-row and e-row hiragana). -/
def ICHIDAN_PRECEDING_CHARS : List String :=
  ["い", "き", "し", "ち", "に", "ひ", "み", "り", "ぎ", "じ", "ぢ", "び", "ぴ",
   "え", "け", "せ", "て", "ね", "へ", "め", "れ", "げ", "ぜ", "で", "べ", "ぺ"]

/-- verbData.ts `FALSE_ICHIDAN_VERBS` (Godan verbs that look like Ichidan). -/
def FALSE_ICHIDAN_VERBS : List String :=
  ["要る", "いる", "入る", "はいる", "走る", "はしる", "知る", "しる",
   "切る", "きる", "帰る", "かえる", "限る", "かぎる", "握る", "にぎる",
   "参る", "まいる", "散る", "ちる", "混じる", "まじる", "嘲る",
   "滑る", "すべる", "蹴る", "ける", "照る", "てる", "練る", "ねる",
   "減る", "へる", "焦る", "あせる", "喋る", "しゃべる"]

/-- verbData.ts `KNOWN_ICHIDAN_VERBS` (confirmed Ichidan allowlist). -/
def KNOWN_ICHIDAN_VERBS : List String :=
  ["見る", "みる", "着る", "起きる", "おきる", "降りる", "おりる",
   "借りる", "かりる", "居る", "信じる", "しんじる", "感じる", "かんじる",
   "落ちる", "おちる", "過ぎる", "すぎる", "生きる", "いきる",
   "浴びる", "あびる", "食べる", "たべる", "寝る", "出る", "でる",
   "開ける", "あける", "閉める", "しめる", "教える", "おしえる",
   "覚える", "おぼえる", "答える", "こたえる", "考える", "かんがえる",
   "変える", "始める", "はじめる", "止める", "とめる", "集める",
   "あつめる", "調べる", "しらべる", "比べる", "くらべる"]

/-- verbData.ts `HIRAGANA_TO_ROMAJI` record (keyed by one-character strings),
as a character lookup. -/
def HIRAGANA_TO_ROMAJI (c : Char) : Option String :=
  if c = 'あ' then some "a" else if c = 'い' then some "i"
  else if c = 'う' then some "u" else if c = 'え' then some "e"
  else if c = 'お' then some "o"
  else if c = 'か' then some "ka" else if c = 'き' then some "ki"
  else if c = 'く' then some "ku" else if c = 'け' then some "ke"
  else if c = 'こ' then some "ko"
  else if c = 'さ' then some "sa" else if c = 'し' then some "shi"
  else if c = 'す' then some "su" else if c = 'せ' then some "se"
  else if c = 'そ' then some "so"
  else if c = 'た' then some "ta" else if c = 'ち' then some "chi"
  else if c = 'つ' then some "tsu" else if c = 'て' then some "te"
  else if c = 'と' then some "to"
  else if c = 'な' then some "na" else if c = 'に' then some "ni"
  else if c = 'ぬ' then some "nu" else if c = 'ね' then some "ne"
  else if c = 'の' then some "no"
  else if c = 'は' then some "ha" else if c = 'ひ' then some "hi"
  else if c = 'ふ' then some "fu" else if c = 'へ' then some "he"
  else if c = 'ほ' then some "ho"
  else if c = 'ま' then some "ma" else if c = 'み' then some "mi"
  else if c = 'む' then some "mu" else if c = 'め' then some "me"
  else if c = 'も' then some "mo"
  else if c = 'や' then some "ya" else if c = 'ゆ' then some "yu"
  else if c = 'よ' then some "yo"
  else if c = 'ら' then some "ra" else if c = 'り' then some "ri"
  else if c = 'る' then some "ru" else if c = 'れ' then some "re"
  else if c = 'ろ' then some "ro"
  else if c = 'わ' then some "wa" else if c = 'を' then some "wo"
  else if c = 'ん' then some "n"
  else if c = 'が' then some "ga" else if c = 'ぎ' then some "gi"
  else if c = 'ぐ' then some "gu" else if c = 'げ' then some "ge"
  else if c = 'ご' then some "go"
  else if c = 'ざ' then some "za" else if c = 'じ' then some "ji"
  else if c = 'ず' then some "zu" else if c = 'ぜ' then some "ze"
  else if c = 'ぞ' then some "zo"
  else if c = 'だ' then some "da" else if c = 'ぢ' then some "ji"
  else if c = 'づ' then some "zu" else if c = 'で' then some "de"
  else if c = 'ど' then some "do"
  else if c = 'ば' then some "ba" else if c = 'び' then some "bi"
  else if c = 'ぶ' then some "bu" else if c = 'べ' then some "be"
  else if c = 'ぼ' then some "bo"
  else if c = 'ぱ' then some "pa" else if c = 'ぴ' then some "pi"
  else if c = 'ぷ' then some "pu" else if c = 'ぺ' then some "pe"
  else if c = 'ぽ' then some "po"
  else if c = 'ゃ' then some "ya" else if c = 'ゅ' then some "yu"
  else if c = 'ょ' then some "yo"
  else if c = 'っ' then some ""
  else if c = 'ぁ' then some "a" else if c = 'ぃ' then some "i"
  else if c = 'ぅ' then some "u" else if c = 'ぇ' then some "e"
  else if c = 'ぉ' then some "o"
  else none

/-- verbData.ts `HIRAGANA_COMBINATIONS` record (keyed by two-character
strings), as a lookup function. -/
def HIRAGANA_COMBINATIONS (combo : String) : Option String :=
  if combo = "きゃ" then some "kya" else if combo = "きゅ" then some "kyu"
  else if combo = "きょ" then some "kyo"
  else if combo = "しゃ" then some "sha" else if combo = "しゅ" then some "shu"
  else if combo = "しょ" then some "sho"
  else if combo = "ちゃ" then some "cha" else if combo = "ちゅ" then some "chu"
  else if combo = "ちょ" then some "cho"
  else if combo = "にゃ" then some "nya" else if combo = "にゅ" then some "nyu"
  else if combo = "にょ" then some "nyo"
  else if combo = "ひゃ" then some "hya" else if combo = "ひゅ" then some "hyu"
  else if combo = "ひょ" then some "hyo"
  else if combo = "みゃ" then some "mya" else if combo = "みゅ" then some "myu"
  else if combo = "みょ" then some "myo"
  else if combo = "りゃ" then some "rya" else if combo = "りゅ" then some "ryu"
  else if combo = "りょ" then some "ryo"
  else if combo = "ぎゃ" then some "gya" else if combo = "ぎゅ" then some "gyu"
  else if combo = "ぎょ" then some "gyo"
  else if combo = "じゃ" then some "ja" else if combo = "じゅ" then some "ju"
  else if combo = "じょ" then some "jo"
  else if combo = "びゃ" then some "bya" else if combo = "びゅ" then some "byu"
  else if combo = "びょ" then some "byo"
  else if combo = "ぴゃ" then some "pya" else if combo = "ぴゅ" then some "pyu"
  else if combo = "ぴょ" then some "pyo"
  else none

-- ===========================================================================
-- Romaji conversion, classifyVerb.ts `hiraganaToRomaji`
-- ===========================================================================

/-- Left-to-right scan of classifyVerb.ts `hiraganaToRomaji`, on the
character list.  A small tsu consumes itself and doubles the first consonant
of the following syllable (combination looked up first); otherwise the
two-character combination is tried before the single-character table, and
unmapped characters pass through verbatim. -/
def hiraganaToRomajiList : List Char → List Char
  | [] => []
  | 'っ' :: c1 :: c2 :: rest =>
    match HIRAGANA_COMBINATIONS (String.mk [c1, c2]) with
    | some combo => combo.data.take 1 ++ hiraganaToRomajiList (c1 :: c2 :: rest)
    | none =>
      (match HIRAGANA_TO_ROMAJI c1 with
       | some r => r.data.take 1
       | none => []) ++ hiraganaToRomajiList (c1 :: c2 :: rest)
  | 'っ' :: c1 :: [] =>
    (match HIRAGANA_TO_ROMAJI c1 with
     | some r => r.data.take 1
     | none => []) ++ hiraganaToRomajiList [c1]
  | c1 :: c2 :: rest =>
    match HIRAGANA_COMBINATIONS (String.mk [c1, c2]) with
    | some combo => combo.data ++ hiraganaToRomajiList rest
    | none =>
      (match HIRAGANA_TO_ROMAJI c1 with
       | some r => r.data
       | none => [c1]) ++ hiraganaToRomajiList (c2 :: rest)
  | [c1] =>
    match HIRAGANA_TO_ROMAJI c1 with
    | some r => r.data
    | none => [c1]

/-- classifyVerb.ts `hiraganaToRomaji` on strings. -/
def hiraganaToRomaji (hiragana : String) : String :=
  String.mk (hiraganaToRomajiList hiragana.data)

-- ===========================================================================
-- Verb classification, classifyVerb.ts
-- ===========================================================================

/-- Shared loop of classifyVerb.ts `detectSuruCompound` and
`detectKuruCompound`: the first listed suffix that is a proper suffix of the
verb yields the prefix in front of it. -/
def findCompoundSuffix : List String → String → Option String
  | [], _ => none
  | suf :: rest, verb =>
    if jsEndsWith verb suf && decide (suf.data.length < verb.data.length) then
      some (jsDropLastChars verb suf.data.length)
    else findCompoundSuffix rest verb

/-- classifyVerb.ts `detectSuruCompound`. -/
def detectSuruCompound (verb : String) : Option String :=
  findCompoundSuffix SURU_COMPOUND_SUFFIXES verb

/-- classifyVerb.ts `detectKuruCompound`. -/
def detectKuruCompound (verb : String) : Option String :=
  findCompoundSuffix KURU_COMPOUND_SUFFIXES verb

/-- classifyVerb.ts `getIrregularType`: lookup in the irregular table. -/
def getIrregularType (verb : String) : Option IrregularType :=
  IRREGULAR_VERBS verb

/-- classifyVerb.ts `looksLikeIchidan`: ends in る, with the preceding
character in the i-row or e-row when it is hiragana, and otherwise decided by
the two kanji disambiguation lists, defaulting to Godan. -/
def looksLikeIchidan (verb : String) : Bool :=
  if verb.data.length < 2 then false
  else if getLastChar verb ≠ "る" then false
  else
    match (secondLastChar verb).data.head? with
    | none => false
    | some c =>
      if isHiragana c then ICHIDAN_PRECEDING_CHARS.contains (secondLastChar verb)
      else if KNOWN_ICHIDAN_VERBS.contains verb then true
      else if FALSE_ICHIDAN_VERBS.contains verb then false
      else false

/-- classifyVerb.ts `isActuallyIchidan`: denylist first, then allowlist, then
the default heuristic (assume Ichidan). -/
def isActuallyIchidan (verb : String) : Bool :=
  if FALSE_ICHIDAN_VERBS.contains verb then false
  else if KNOWN_ICHIDAN_VERBS.contains verb then true
  else true

/-- classifyVerb.ts `isGodanVerb`: last character is a Godan ending. -/
def isGodanVerb (verb : String) : Bool :=
  GODAN_ENDING_CHARS.contains (getLastChar verb)

/-- classifyVerb.ts `classifyVerb`.  The source throws `Error` values whose
messages begin with the error code; the facade re-parses that prefix, so the
embedding carries the code and remaining message in the `Except` error
directly. -/
def classifyVerb (input : String) : Except ConjugationError VerbInfo :=
  if jsTrim input = "" then
    .error { code := .EMPTY_INPUT, message := "Please enter a Japanese verb" }
  else
    let verb := jsTrim input
    if !isJapanese verb then
      .error { code := .INVALID_CHARACTERS,
               message := "Please enter a valid Japanese verb using hiragana, katakana, or kanji" }
    else
      match detectSuruCompound verb with
      | some suruPrefix =>
        .ok { dictionaryForm := verb, reading := verb,
              romaji := hiraganaToRomaji verb, type := .irregular,
              stem := suruPrefix,
              ending := jsDropChars verb suruPrefix.data.length,
              irregularType := some .suru, compoundPrefix := some suruPrefix }
      | none =>
        match detectKuruCompound verb with
        | some kuruPrefix =>
          .ok { dictionaryForm := verb, reading := verb,
                romaji := hiraganaToRomaji verb, type := .irregular,
                stem := kuruPrefix,
                ending := jsDropChars verb kuruPrefix.data.length,
                irregularType := some .kuru, compoundPrefix := some kuruPrefix }
        | none =>
          match getIrregularType verb with
          | some irregularType =>
            .ok { dictionaryForm := verb, reading := verb,
                  romaji := hiraganaToRomaji verb, type := .irregular,
                  stem := getStem verb, ending := getLastChar verb,
                  irregularType := some irregularType }
          | none =>
            if looksLikeIchidan verb && isActuallyIchidan verb then
              .ok { dictionaryForm := verb, reading := verb,
                    romaji := hiraganaToRomaji verb, type := .ichidan,
                    stem := getStem verb, ending := "る" }
            else if isGodanVerb verb then
              .ok { dictionaryForm := verb, reading := verb,
                    romaji := hiraganaToRomaji verb, type := .godan,
                    stem := getStem verb, ending := getLastChar verb }
            else
              .error { code := .UNKNOWN_VERB,
                       message := "This verb is not recognized. Please check the spelling or try the dictionary form" }

-- ===========================================================================
-- Form catalogue, data/conjugationForms.ts `CONJUGATION_FORMS`
-- ===========================================================================

/-- Static catalogue of the 34 form definitions (conjugationForms.ts). -/
def CONJUGATION_FORMS : List FormDefinition :=
  [{ id := "dictionary", category := .basic, name := "Dictionary Form",
     nameJa := "辞書形", formality := .plain },
   { id := "te", category := .basic, name := "Te Form",
     nameJa := "て形", formality := .plain },
   { id := "masu", category := .polite, name := "Masu Form",
     nameJa := "ます形", formality := .polite },
   { id := "masen", category := .polite, name := "Masen (Polite Negative)",
     nameJa := "ません", formality := .polite },
   { id := "mashita", category := .polite, name := "Mashita (Polite Past)",
     nameJa := "ました", formality := .polite },
   { id := "masen-deshita", category := .polite,
     name := "Masen Deshita (Polite Past Negative)",
     nameJa := "ませんでした", formality := .polite },
   { id := "nai", category := .negative, name := "Nai Form (Negative)",
     nameJa := "ない形", formality := .plain },
   { id := "nakatta", category := .negative, name := "Nakatta Form (Past Negative)",
     nameJa := "なかった形", formality := .plain },
   { id := "ta", category := .past, name := "Ta Form (Past)",
     nameJa := "た形", formality := .plain },
   { id := "volitional-plain", category := .volitional, name := "Volitional (Plain)",
     nameJa := "意向形", formality := .plain },
   { id := "volitional-polite", category := .volitional, name := "Volitional (Polite)",
     nameJa := "ましょう", formality := .polite },
   { id := "potential-plain", category := .potential, name := "Potential (Plain)",
     nameJa := "可能形", formality := .plain },
   { id := "potential-polite", category := .potential, name := "Potential (Polite)",
     nameJa := "可能形丁寧", formality := .polite },
   { id := "potential-negative", category := .potential, name := "Potential (Negative)",
     nameJa := "可能形否定", formality := .plain },
   { id := "passive-plain", category := .passive, name := "Passive (Plain)",
     nameJa := "受身形", formality := .plain },
   { id := "passive-polite", category := .passive, name := "Passive (Polite)",
     nameJa := "受身形丁寧", formality := .polite },
   { id := "causative-plain", category := .causative, name := "Causative (Plain)",
     nameJa := "使役形", formality := .plain },
   { id := "causative-polite", category := .causative, name := "Causative (Polite)",
     nameJa := "使役形丁寧", formality := .polite },
   { id := "causative-passive-plain", category := .causativePassive,
     name := "Causative-Passive (Plain)", nameJa := "使役受身形", formality := .plain },
   { id := "causative-passive-polite", category := .causativePassive,
     name := "Causative-Passive (Polite)", nameJa := "使役受身形丁寧", formality := .polite },
   { id := "imperative-plain", category := .imperative, name := "Imperative (Plain)",
     nameJa := "命令形", formality := .plain },
   { id := "imperative-polite", category := .imperative, name := "Imperative (Polite)",
     nameJa := "てください", formality := .polite },
   { id := "imperative-negative", category := .imperative, name := "Negative Imperative",
     nameJa := "禁止形", formality := .plain },
   { id := "conditional-ba", category := .conditional, name := "Ba Form (Conditional)",
     nameJa := "ば形", formality := .plain },
   { id := "conditional-tara", category := .conditional, name := "Tara Form (Conditional)",
     nameJa := "たら形", formality := .plain },
   { id := "conditional-nara", category := .conditional, name := "Nara Form (Conditional)",
     nameJa := "なら形", formality := .plain },
   { id := "tai", category := .taiForm, name := "Tai Form (Want to)",
     nameJa := "たい形", formality := .plain },
   { id := "takunai", category := .taiForm, name := "Takunai (Don't want to)",
     nameJa := "たくない", formality := .plain },
   { id := "takatta", category := .taiForm, name := "Takatta (Wanted to)",
     nameJa := "たかった", formality := .plain },
   { id := "takunakatta", category := .taiForm, name := "Takunakatta (Didn't want to)",
     nameJa := "たくなかった", formality := .plain },
   { id := "progressive-present", category := .progressive, name := "Te-iru (Continuous)",
     nameJa := "ている", formality := .plain },
   { id := "progressive-past", category := .progressive, name := "Te-ita (Past Continuous)",
     nameJa := "ていた", formality := .plain },
   { id := "honorific-respectful", category := .honorific,
     name := "Respectful (O-verb-ni-naru)", nameJa := "お〜になる", formality := .polite },
   { id := "honorific-humble", category := .honorific,
     name := "Humble (O-verb-suru)", nameJa := "お〜する", formality := .polite }]

/-- Shared `createForm` helper of the three generator modules: looks the id
up in the catalogue (the source throws on an unknown id, modelled by `none`)
and assembles the `ConjugationForm`; the kanji rendering defaults to the
phonetic one. -/
def createForm (id hiragana : String) (kanji : String := hiragana) :
    Option ConjugationForm :=
  match CONJUGATION_FORMS.find? (fun f => f.id == id) with
  | none => none
  | some formDef =>
    some { id := id, name := formDef.name, nameJapanese := formDef.nameJa,
           kanji := kanji, hiragana := hiragana,
           romaji := hiraganaToRomaji hiragana,
           formality := formDef.formality, category := formDef.category }

-- ===========================================================================
-- Irregular verb generators, conjugateIrregular.ts
-- ===========================================================================

/-- Sequential `forms.push(createForm(...))` loop shared by all generator
modules: each entry is (form id, phonetic rendering, optional kanji
rendering); a failing `createForm` (unknown id, a `throw` in the source)
fails the whole generator. -/
def pushForms : List (String × String × Option String) → Option (List ConjugationForm)
  | [] => some []
  | e :: rest =>
    match createForm e.1 e.2.1 (e.2.2.getD e.2.1) with
    | none => none
    | some f =>
      match pushForms rest with
      | none => none
      | some fs => some (f :: fs)

/-- conjugateIrregular.ts `conjugateSuru`: every form is the compound prefix
(`verb.compoundPrefix || ''`, written `pfx` below) followed by the
irregular する literal; the two honorific forms put the politeness marker
お in front of the prefix. -/
def conjugateSuru (verb : VerbInfo) : Option (List ConjugationForm) :=
  let pfx := verb.compoundPrefix.getD ""
  pushForms [
     ("dictionary", pfx ++ "する", none),
     ("te", pfx ++ "して", none),
     ("masu", pfx ++ "します", none),
     ("masen", pfx ++ "しません", none),
     ("mashita", pfx ++ "しました", none),
     ("masen-deshita", pfx ++ "しませんでした", none),
     ("nai", pfx ++ "しない", none),
     ("nakatta", pfx ++ "しなかった", none),
     ("ta", pfx ++ "した", none),
     ("volitional-plain", pfx ++ "しよう", none),
     ("volitional-polite", pfx ++ "しましょう", none),
     ("potential-plain", pfx ++ "できる", none),
     ("potential-polite", pfx ++ "できます", none),
     ("potential-negative", pfx ++ "できない", none),
     ("passive-plain", pfx ++ "される", none),
     ("passive-polite", pfx ++ "されます", none),
     ("causative-plain", pfx ++ "させる", none),
     ("causative-polite", pfx ++ "させます", none),
     ("causative-passive-plain", pfx ++ "させられる", none),
     ("causative-passive-polite", pfx ++ "させられます", none),
     ("imperative-plain", pfx ++ "しろ", none),
     ("imperative-polite", pfx ++ "してください", none),
     ("imperative-negative", pfx ++ "するな", none),
     ("conditional-ba", pfx ++ "すれば", none),
     ("conditional-tara", pfx ++ "したら", none),
     ("conditional-nara", pfx ++ "するなら", none),
     ("tai", pfx ++ "したい", none),
     ("takunai", pfx ++ "したくない", none),
     ("takatta", pfx ++ "したかった", none),
     ("takunakatta", pfx ++ "したくなかった", none),
     ("progressive-present", pfx ++ "している", none),
     ("progressive-past", pfx ++ "していた", none),
     ("honorific-respectful", "お" ++ pfx ++ "しになる", none),
     ("honorific-humble", "お" ++ pfx ++ "しする", none)]

/-- conjugateIrregular.ts `conjugateKuru`: phonetic rendering first, mixed
kanji rendering (来) second, both behind the compound prefix. -/
def conjugateKuru (verb : VerbInfo) : Option (List ConjugationForm) :=
  let pfx := verb.compoundPrefix.getD ""
  pushForms [
     ("dictionary", pfx ++ "くる", some (pfx ++ "来る")),
     ("te", pfx ++ "きて", some (pfx ++ "来て")),
     ("masu", pfx ++ "きます", some (pfx ++ "来ます")),
     ("masen", pfx ++ "きません", some (pfx ++ "来ません")),
     ("mashita", pfx ++ "きました", some (pfx ++ "来ました")),
     ("masen-deshita", pfx ++ "きませんでした", some (pfx ++ "来ませんでした")),
     ("nai", pfx ++ "こない", some (pfx ++ "来ない")),
     ("nakatta", pfx ++ "こなかった", some (pfx ++ "来なかった")),
     ("ta", pfx ++ "きた", some (pfx ++ "来た")),
     ("volitional-plain", pfx ++ "こよう", some (pfx ++ "来よう")),
     ("volitional-polite", pfx ++ "きましょう", some (pfx ++ "来ましょう")),
     ("potential-plain", pfx ++ "こられる", some (pfx ++ "来られる")),
     ("potential-polite", pfx ++ "こられます", some (pfx ++ "来られます")),
     ("potential-negative", pfx ++ "こられない", some (pfx ++ "来られない")),
     ("passive-plain", pfx ++ "こられる", some (pfx ++ "来られる")),
     ("passive-polite", pfx ++ "こられます", some (pfx ++ "来られます")),
     ("causative-plain", pfx ++ "こさせる", some (pfx ++ "来させる")),
     ("causative-polite", pfx ++ "こさせます", some (pfx ++ "来させます")),
     ("causative-passive-plain", pfx ++ "こさせられる", some (pfx ++ "来させられる")),
     ("causative-passive-polite", pfx ++ "こさせられます", some (pfx ++ "来させられます")),
     ("imperative-plain", pfx ++ "こい", some (pfx ++ "来い")),
     ("imperative-polite", pfx ++ "きてください", some (pfx ++ "来てください")),
     ("imperative-negative", pfx ++ "くるな", some (pfx ++ "来るな")),
     ("conditional-ba", pfx ++ "くれば", some (pfx ++ "来れば")),
     ("conditional-tara", pfx ++ "きたら", some (pfx ++ "来たら")),
     ("conditional-nara", pfx ++ "くるなら", some (pfx ++ "来るなら")),
     ("tai", pfx ++ "きたい", some (pfx ++ "来たい")),
     ("takunai", pfx ++ "きたくない", some (pfx ++ "来たくない")),
     ("takatta", pfx ++ "きたかった", some (pfx ++ "来たかった")),
     ("takunakatta", pfx ++ "きたくなかった", some (pfx ++ "来たくなかった")),
     ("progressive-present", pfx ++ "きている", some (pfx ++ "来ている")),
     ("progressive-past", pfx ++ "きていた", some (pfx ++ "来ていた")),
     ("honorific-respectful", "お" ++ pfx ++ "きになる", some ("お" ++ pfx ++ "来になる")),
     ("honorific-humble", "お" ++ pfx ++ "きする", some ("お" ++ pfx ++ "来する"))]

/-- conjugateIrregular.ts `conjugateAru`: fixed table ignoring its argument;
the negative forms are the irregular words ない and なかった. -/
def conjugateAru (_verb : VerbInfo) : Option (List ConjugationForm) :=
  pushForms [
     ("dictionary", "ある", none),
     ("te", "あって", none),
     ("masu", "あります", none),
     ("masen", "ありません", none),
     ("mashita", "ありました", none),
     ("masen-deshita", "ありませんでした", none),
     ("nai", "ない", none),
     ("nakatta", "なかった", none),
     ("ta", "あった", none),
     ("volitional-plain", "あろう", none),
     ("volitional-polite", "ありましょう", none),
     ("potential-plain", "ありえる", none),
     ("potential-polite", "ありえます", none),
     ("potential-negative", "ありえない", none),
     ("passive-plain", "あられる", none),
     ("passive-polite", "あられます", none),
     ("causative-plain", "あらせる", none),
     ("causative-polite", "あらせます", none),
     ("causative-passive-plain", "あらせられる", none),
     ("causative-passive-polite", "あらせられます", none),
     ("imperative-plain", "あれ", none),
     ("imperative-polite", "あってください", none),
     ("imperative-negative", "あるな", none),
     ("conditional-ba", "あれば", none),
     ("conditional-tara", "あったら", none),
     ("conditional-nara", "あるなら", none),
     ("tai", "ありたい", none),
     ("takunai", "ありたくない", none),
     ("takatta", "ありたかった", none),
     ("takunakatta", "ありたくなかった", none),
     ("progressive-present", "あっている", none),
     ("progressive-past", "あっていた", none),
     ("honorific-respectful", "おありになる", none),
     ("honorific-humble", "おありする", none)]

/-- conjugateIrregular.ts `conjugateIku`: fixed table ignoring its argument;
the te-form and ta-form use the って/った sound change despite the く
terminal. -/
def conjugateIku (_verb : VerbInfo) : Option (List ConjugationForm) :=
  pushForms [
     ("dictionary", "いく", some "行く"),
     ("te", "いって", some "行って"),
     ("masu", "いきます", some "行きます"),
     ("masen", "いきません", some "行きません"),
     ("mashita", "いきました", some "行きました"),
     ("masen-deshita", "いきませんでした", some "行きませんでした"),
     ("nai", "いかない", some "行かない"),
     ("nakatta", "いかなかった", some "行かなかった"),
     ("ta", "いった", some "行った"),
     ("volitional-plain", "いこう", some "行こう"),
     ("volitional-polite", "いきましょう", some "行きましょう"),
     ("potential-plain", "いける", some "行ける"),
     ("potential-polite", "いけます", some "行けます"),
     ("potential-negative", "いけない", some "行けない"),
     ("passive-plain", "いかれる", some "行かれる"),
     ("passive-polite", "いかれます", some "行かれます"),
     ("causative-plain", "いかせる", some "行かせる"),
     ("causative-polite", "いかせます", some "行かせます"),
     ("causative-passive-plain", "いかせられる", some "行かせられる"),
     ("causative-passive-polite", "いかせられます", some "行かせられます"),
     ("imperative-plain", "いけ", some "行け"),
     ("imperative-polite", "いってください", some "行ってください"),
     ("imperative-negative", "いくな", some "行くな"),
     ("conditional-ba", "いけば", some "行けば"),
     ("conditional-tara", "いったら", some "行ったら"),
     ("conditional-nara", "いくなら", some "行くなら"),
     ("tai", "いきたい", some "行きたい"),
     ("takunai", "いきたくない", some "行きたくない"),
     ("takatta", "いきたかった", some "行きたかった"),
     ("takunakatta", "いきたくなかった", some "行きたくなかった"),
     ("progressive-present", "いっている", some "行っている"),
     ("progressive-past", "いっていた", some "行っていた"),
     ("honorific-respectful", "おいきになる", some "お行きになる"),
     ("honorific-humble", "おいきする", some "お行きする")]

/-- conjugateIrregular.ts `conjugateHonorific`: stem-based table with the
irregular masu family stem (stem + い instead of stem + り). -/
def conjugateHonorific (verb : VerbInfo) : Option (List ConjugationForm) :=
  let stem := verb.stem
  pushForms [
     ("dictionary", verb.dictionaryForm, none),
     ("te", stem ++ "って", none),
     ("masu", stem ++ "います", none),
     ("masen", stem ++ "いません", none),
     ("mashita", stem ++ "いました", none),
     ("masen-deshita", stem ++ "いませんでした", none),
     ("nai", stem ++ "らない", none),
     ("nakatta", stem ++ "らなかった", none),
     ("ta", stem ++ "った", none),
     ("volitional-plain", stem ++ "ろう", none),
     ("volitional-polite", stem ++ "いましょう", none),
     ("potential-plain", stem ++ "れる", none),
     ("potential-polite", stem ++ "れます", none),
     ("potential-negative", stem ++ "れない", none),
     ("passive-plain", stem ++ "られる", none),
     ("passive-polite", stem ++ "られます", none),
     ("causative-plain", stem ++ "らせる", none),
     ("causative-polite", stem ++ "らせます", none),
     ("causative-passive-plain", stem ++ "らせられる", none),
     ("causative-passive-polite", stem ++ "らせられます", none),
     ("imperative-plain", stem ++ "い", none),
     ("imperative-polite", stem ++ "ってください", none),
     ("imperative-negative", verb.dictionaryForm ++ "な", none),
     ("conditional-ba", stem ++ "れば", none),
     ("conditional-tara", stem ++ "ったら", none),
     ("conditional-nara", verb.dictionaryForm ++ "なら", none),
     ("tai", stem ++ "いたい", none),
     ("takunai", stem ++ "いたくない", none),
     ("takatta", stem ++ "いたかった", none),
     ("takunakatta", stem ++ "いたくなかった", none),
     ("progressive-present", stem ++ "っている", none),
     ("progressive-past", stem ++ "っていた", none),
     ("honorific-respectful", "お" ++ stem ++ "いになる", none),
     ("honorific-humble", "お" ++ stem ++ "いする", none)]

/-- conjugateIrregular.ts `conjugateIrregular`: guard on the verb type, then
dispatch on the irregular subtype (the source throws on a non-irregular verb
or an unset subtype). -/
def conjugateIrregular (verb : VerbInfo) : Option (List ConjugationForm) :=
  if verb.type ≠ .irregular then none
  else
    match verb.irregularType with
    | some .suru => conjugateSuru verb
    | some .kuru => conjugateKuru verb
    | some .aru => conjugateAru verb
    | some .iku => conjugateIku verb
    | some .honorific => conjugateHonorific verb
    | none => none

/-- conjugateIrregular.ts `getAruNegative`. -/
def getAruNegative : String := "ない"

/-- conjugateIrregular.ts `getIkuTeForm`. -/
def getIkuTeForm : String := "行って"


-- ===========================================================================
-- Godan engine, conjugateGodan.ts
-- ===========================================================================

/-- Vowel grades of conjugateGodan.ts `type GodanGrade`. -/
inductive GodanGrade where
  | a
  | i
  | u
  | e
  | o
  | te
  | ta
deriving DecidableEq

/-- Field selection `endingMap[grade]` on the ending table row.  The source
record has no `u` key; the `u` grade is intercepted before the access in
`getGodanStem`, so that branch is unreachable and yields the empty string. -/
def GodanConjugationMap.get (m : GodanConjugationMap) : GodanGrade → String
  | .a => m.a
  | .i => m.i
  | .e => m.e
  | .o => m.o
  | .te => m.te
  | .ta => m.ta
  | .u => ""

/-- conjugateGodan.ts `getGodanStem`: table lookup (the source throws on an
unknown ending, modelled by `none`), dictionary form for the u grade, and
stem plus the grade entry otherwise. -/
def getGodanStem (verb : VerbInfo) (grade : GodanGrade) : Option String :=
  match GODAN_ENDINGS verb.ending with
  | none => none
  | some endingMap =>
    if grade = .u then some verb.dictionaryForm
    else some (verb.stem ++ endingMap.get grade)

/-- conjugateGodan.ts `isIkuVerb`. -/
def isIkuVerb (verb : VerbInfo) : Bool :=
  verb.dictionaryForm == "行く" || verb.dictionaryForm == "いく" ||
    (verb.irregularType == some .iku && verb.type == .irregular)

/-- conjugateGodan.ts `getGodanTeForm`: the 行く special case, else the te
entry of the sound-change table. -/
def getGodanTeForm (verb : VerbInfo) : Option String :=
  if isIkuVerb verb then some (verb.stem ++ "って")
  else getGodanStem verb .te

/-- conjugateGodan.ts `getGodanTaForm`: same rules with た/だ. -/
def getGodanTaForm (verb : VerbInfo) : Option String :=
  if isIkuVerb verb then some (verb.stem ++ "った")
  else getGodanStem verb .ta

/-- conjugateGodan.ts `conjugateGodan`: guard on the verb type, compute the
grade stems and the te/ta forms, then emit the 34 forms in catalogue order. -/
def conjugateGodan (verb : VerbInfo) : Option (List ConjugationForm) :=
  if verb.type ≠ .godan then none
  else
    match getGodanTeForm verb, getGodanTaForm verb, getGodanStem verb .i,
        getGodanStem verb .a, getGodanStem verb .o, getGodanStem verb .e with
    | some teForm, some taForm, some masuStem, some naiStem,
      some volitionalStem, some potentialStem =>
      pushForms [
     ("dictionary", verb.dictionaryForm, none),
     ("te", teForm, none),
     ("masu", masuStem ++ "ます", none),
     ("masen", masuStem ++ "ません", none),
     ("mashita", masuStem ++ "ました", none),
     ("masen-deshita", masuStem ++ "ませんでした", none),
     ("nai", naiStem ++ "ない", none),
     ("nakatta", naiStem ++ "なかった", none),
     ("ta", taForm, none),
     ("volitional-plain", volitionalStem ++ "う", none),
     ("volitional-polite", masuStem ++ "ましょう", none),
     ("potential-plain", potentialStem ++ "る", none),
     ("potential-polite", potentialStem ++ "ます", none),
     ("potential-negative", potentialStem ++ "ない", none),
     ("passive-plain", naiStem ++ "れる", none),
     ("passive-polite", naiStem ++ "れます", none),
     ("causative-plain", naiStem ++ "せる", none),
     ("causative-polite", naiStem ++ "せます", none),
     ("causative-passive-plain", naiStem ++ "せられる", none),
     ("causative-passive-polite", naiStem ++ "せられます", none),
     ("imperative-plain", potentialStem, none),
     ("imperative-polite", teForm ++ "ください", none),
     ("imperative-negative", verb.dictionaryForm ++ "な", none),
     ("conditional-ba", potentialStem ++ "ば", none),
     ("conditional-tara", taForm ++ "ら", none),
     ("conditional-nara", verb.dictionaryForm ++ "なら", none),
     ("tai", masuStem ++ "たい", none),
     ("takunai", masuStem ++ "たくない", none),
     ("takatta", masuStem ++ "たかった", none),
     ("takunakatta", masuStem ++ "たくなかった", none),
     ("progressive-present", teForm ++ "いる", none),
     ("progressive-past", teForm ++ "いた", none),
     ("honorific-respectful", "お" ++ masuStem ++ "になる", none),
     ("honorific-humble", "お" ++ masuStem ++ "する", none)]
    | _, _, _, _, _, _ => none

-- ===========================================================================
-- Ichidan engine, conjugateIchidan.ts
-- ===========================================================================

/-- conjugateIchidan.ts `getIchidanStem`. -/
def getIchidanStem (verb : VerbInfo) : String := verb.stem

/-- conjugateIchidan.ts `conjugateIchidan`: guard on the verb type, then
every form is the invariant stem plus a fixed suffix (the potential slot
carries the traditional られる suffix). -/
def conjugateIchidan (verb : VerbInfo) : Option (List ConjugationForm) :=
  if verb.type ≠ .ichidan then none
  else
    let stem := getIchidanStem verb
    pushForms [
     ("dictionary", verb.dictionaryForm, none),
     ("te", stem ++ "て", none),
     ("masu", stem ++ "ます", none),
     ("masen", stem ++ "ません", none),
     ("mashita", stem ++ "ました", none),
     ("masen-deshita", stem ++ "ませんでした", none),
     ("nai", stem ++ "ない", none),
     ("nakatta", stem ++ "なかった", none),
     ("ta", stem ++ "た", none),
     ("volitional-plain", stem ++ "よう", none),
     ("volitional-polite", stem ++ "ましょう", none),
     ("potential-plain", stem ++ "られる", none),
     ("potential-polite", stem ++ "られます", none),
     ("potential-negative", stem ++ "られない", none),
     ("passive-plain", stem ++ "られる", none),
     ("passive-polite", stem ++ "られます", none),
     ("causative-plain", stem ++ "させる", none),
     ("causative-polite", stem ++ "させます", none),
     ("causative-passive-plain", stem ++ "させられる", none),
     ("causative-passive-polite", stem ++ "させられます", none),
     ("imperative-plain", stem ++ "ろ", none),
     ("imperative-polite", stem ++ "てください", none),
     ("imperative-negative", verb.dictionaryForm ++ "な", none),
     ("conditional-ba", stem ++ "れば", none),
     ("conditional-tara", stem ++ "たら", none),
     ("conditional-nara", verb.dictionaryForm ++ "なら", none),
     ("tai", stem ++ "たい", none),
     ("takunai", stem ++ "たくない", none),
     ("takatta", stem ++ "たかった", none),
     ("takunakatta", stem ++ "たくなかった", none),
     ("progressive-present", stem ++ "ている", none),
     ("progressive-past", stem ++ "ていた", none),
     ("honorific-respectful", "お" ++ stem ++ "になる", none),
     ("honorific-humble", "お" ++ stem ++ "する", none)]

/-- conjugateIchidan.ts `getIchidanColloquialPotential`: the shortened れる
potential (the source throws on a non-Ichidan verb, modelled by `none`). -/
def getIchidanColloquialPotential (verb : VerbInfo) : Option String :=
  if verb.type ≠ .ichidan then none
  else some (verb.stem ++ "れる")

/-- conjugateIchidan.ts `getIchidanTraditionalPotential`. -/
def getIchidanTraditionalPotential (verb : VerbInfo) : Option String :=
  if verb.type ≠ .ichidan then none
  else some (verb.stem ++ "られる")

-- ===========================================================================
-- Facade, lib/engine/conjugate.ts
-- ===========================================================================

/-- conjugate.ts `isEmptyOrWhitespace`. -/
def isEmptyOrWhitespace (input : String) : Bool := jsTrim input = ""

/-- conjugate.ts `containsOnlyJapanese`. -/
def containsOnlyJapanese (input : String) : Bool := isJapanese (jsTrim input)

/-- conjugate.ts `validateInput`: `EMPTY_INPUT` for empty or whitespace-only
input, `INVALID_CHARACTERS` for characters outside the Japanese scripts. -/
def validateInput (input : String) : Option ConjugationError :=
  if isEmptyOrWhitespace input then
    some { code := .EMPTY_INPUT, message := "Please enter a Japanese verb" }
  else
    let trimmed := jsTrim input
    if !containsOnlyJapanese trimmed then
      some { code := .INVALID_CHARACTERS,
             message := "Please enter a valid Japanese verb using hiragana, katakana, or kanji" }
    else none

/-- conjugate.ts `getConjugationFunction`: dispatch by verb type. -/
def getConjugationFunction (verbInfo : VerbInfo) :
    VerbInfo → Option (List ConjugationForm) :=
  match verbInfo.type with
  | .godan => conjugateGodan
  | .ichidan => conjugateIchidan
  | .irregular => conjugateIrregular

/-- conjugate.ts `conjugate`: validate, classify, dispatch, assemble.  The
timestamp taken from `Date.now()` in the source is the `now` argument; a
throw inside a generator is converted to a `CONJUGATION_FAILED` error value,
and a classifier throw keeps its error code (the source re-parses the code
from the message prefix). -/
def conjugate (input : String) (now : Nat) :
    Except ConjugationError ConjugationResult :=
  match validateInput input with
  | some validationError => .error validationError
  | none =>
    match classifyVerb input with
    | .error e => .error e
    | .ok verbInfo =>
      match getConjugationFunction verbInfo verbInfo with
      | none =>
        .error { code := .CONJUGATION_FAILED,
                 message := "An unexpected error occurred during conjugation" }
      | some forms =>
        .ok { verb := verbInfo, forms := forms, timestamp := now }

/-- Sequence of independent facade calls (each pair is one call's input and
captured timestamp): the interleaving model for the purity property. -/
def runCalls (calls : List (String × Nat)) :
    List (Except ConjugationError ConjugationResult) :=
  calls.map (fun c => conjugate c.1 c.2)

/-- conjugate.ts `conjugateToForm`: point query for a single form by id. -/
def conjugateToForm (input : String) (now : Nat) (formId : String) :
    Option ConjugationForm :=
  match conjugate input now with
  | .error _ => none
  | .ok result => result.forms.find? (fun form => form.id == formId)

-- ===========================================================================
-- Serialization, types.ts
-- ===========================================================================

/-- types.ts `interface SerializedConjugationResult`: the JSON-serializable
shape.  `JSON.stringify`/`JSON.parse` of this record of strings and an
integer is the host runtime's lossless text encoding; the repository's own
code is the structural copy into and out of this shape, which is what the
embedding captures. -/
structure SerializedConjugationResult where
  verb : VerbInfo
  forms : List ConjugationForm
  timestamp : Nat
deriving DecidableEq

/-- types.ts `serializeResult` (the structural copy inside
`JSON.stringify`). -/
def serializeResult (result : ConjugationResult) : SerializedConjugationResult :=
  { verb := result.verb, forms := result.forms, timestamp := result.timestamp }

/-- types.ts `deserializeResult` (the structural copy out of
`JSON.parse`). -/
def deserializeResult (json : SerializedConjugationResult) : ConjugationResult :=
  { verb := json.verb, forms := json.forms, timestamp := json.timestamp }

/-- Per-index form comparison loop of types.ts `areResultsEquivalent`
(the source first compares lengths, then all eight fields at each index). -/
def formsEquivalent : List ConjugationForm → List ConjugationForm → Bool
  | [], [] => true
  | formA :: restA, formB :: restB =>
    (formA.id == formB.id && formA.name == formB.name &&
     formA.nameJapanese == formB.nameJapanese && formA.kanji == formB.kanji &&
     formA.hiragana == formB.hiragana && formA.romaji == formB.romaji &&
     formA.formality == formB.formality && formA.category == formB.category) &&
    formsEquivalent restA restB
  | _, _ => false

/-- types.ts `areResultsEquivalent`: field-by-field structural equivalence of
two results (verb info, timestamp, and every form). -/
def areResultsEquivalent (a b : ConjugationResult) : Bool :=
  (a.verb.dictionaryForm == b.verb.dictionaryForm &&
   a.verb.reading == b.verb.reading &&
   a.verb.romaji == b.verb.romaji &&
   a.verb.type == b.verb.type &&
   a.verb.stem == b.verb.stem &&
   a.verb.ending == b.verb.ending &&
   a.verb.irregularType == b.verb.irregularType &&
   a.verb.compoundPrefix == b.verb.compoundPrefix) &&
  a.timestamp == b.timestamp &&
  a.forms.length == b.forms.length &&
  formsEquivalent a.forms b.forms

-- ===========================================================================
-- Reduction lemmas: createForm on each catalogue id
-- ===========================================================================

/-- Catalogue lookup of the form id "dictionary". -/
@[simp] theorem createForm_dictionary (h k : String) :
    createForm "dictionary" h k =
      some { id := "dictionary", name := "Dictionary Form",
             nameJapanese := "辞書形", kanji := k, hiragana := h,
             romaji := hiraganaToRomaji h, formality := .plain,
             category := .basic } := rfl

/-- Catalogue lookup of the form id "te". -/
@[simp] theorem createForm_te (h k : String) :
    createForm "te" h k =
      some { id := "te", name := "Te Form",
             nameJapanese := "て形", kanji := k, hiragana := h,
             romaji := hiraganaToRomaji h, formality := .plain,
             category := .basic } := rfl

/-- Catalogue lookup of the form id "masu". -/
@[simp] theorem createForm_masu (h k : String) :
    createForm "masu" h k =
      some { id := "masu", name := "Masu Form",
             nameJapanese := "ます形", kanji := k, hiragana := h,
             romaji := hiraganaToRomaji h, formality := .polite,
             category := .polite } := rfl

/-- Catalogue lookup of the form id "masen". -/
@[simp] theorem createForm_masen (h k : String) :
    createForm "masen" h k =
      some { id := "masen", name := "Masen (Polite Negative)",
             nameJapanese := "ません", kanji := k, hiragana := h,
             romaji := hiraganaToRomaji h, formality := .polite,
             category := .polite } := rfl

/-- Catalogue lookup of the form id "mashita". -/
@[simp] theorem createForm_mashita (h k : String) :
    createForm "mashita" h k =
      some { id := "mashita", name := "Mashita (Polite Past)",
             nameJapanese := "ました", kanji := k, hiragana := h,
             romaji := hiraganaToRomaji h, formality := .polite,
             category := .polite } := rfl

/-- Catalogue lookup of the form id "masen-deshita". -/
@[simp] theorem createForm_masen_deshita (h k : String) :
    createForm "masen-deshita" h k =
      some { id := "masen-deshita", name := "Masen Deshita (Polite Past Negative)",
             nameJapanese := "ませんでした", kanji := k, hiragana := h,
             romaji := hiraganaToRomaji h, formality := .polite,
             category := .polite } := rfl

/-- Catalogue lookup of the form id "nai". -/
@[simp] theorem createForm_nai (h k : String) :
    createForm "nai" h k =
      some { id := "nai", name := "Nai Form (Negative)",
             nameJapanese := "ない形", kanji := k, hiragana := h,
             romaji := hiraganaToRomaji h, formality := .plain,
             category := .negative } := rfl

/-- Catalogue lookup of the form id "nakatta". -/
@[simp] theorem createForm_nakatta (h k : String) :
    createForm "nakatta" h k =
      some { id := "nakatta", name := "Nakatta Form (Past Negative)",
             nameJapanese := "なかった形", kanji := k, hiragana := h,
             romaji := hiraganaToRomaji h, formality := .plain,
             category := .negative } := rfl

/-- Catalogue lookup of the form id "ta". -/
@[simp] theorem createForm_ta (h k : String) :
    createForm "ta" h k =
      some { id := "ta", name := "Ta Form (Past)",
             nameJapanese := "た形", kanji := k, hiragana := h,
             romaji := hiraganaToRomaji h, formality := .plain,
             category := .past } := rfl

/-- Catalogue lookup of the form id "volitional-plain". -/
@[simp] theorem createForm_volitional_plain (h k : String) :
    createForm "volitional-plain" h k =
      some { id := "volitional-plain", name := "Volitional (Plain)",
             nameJapanese := "意向形", kanji := k, hiragana := h,
             romaji := hiraganaToRomaji h, formality := .plain,
             category := .volitional } := rfl

/-- Catalogue lookup of the form id "volitional-polite". -/
@[simp] theorem createForm_volitional_polite (h k : String) :
    createForm "volitional-polite" h k =
      some { id := "volitional-polite", name := "Volitional (Polite)",
             nameJapanese := "ましょう", kanji := k, hiragana := h,
             romaji := hiraganaToRomaji h, formality := .polite,
             category := .volitional } := rfl

/-- Catalogue lookup of the form id "potential-plain". -/
@[simp] theorem createForm_potential_plain (h k : String) :
    createForm "potential-plain" h k =
      some { id := "potential-plain", name := "Potential (Plain)",
             nameJapanese := "可能形", kanji := k, hiragana := h,
             romaji := hiraganaToRomaji h, formality := .plain,
             category := .potential } := rfl

/-- Catalogue lookup of the form id "potential-polite". -/
@[simp] theorem createForm_potential_polite (h k : String) :
    createForm "potential-polite" h k =
      some { id := "potential-polite", name := "Potential (Polite)",
             nameJapanese := "可能形丁寧", kanji := k, hiragana := h,
             romaji := hiraganaToRomaji h, formality := .polite,
             category := .potential } := rfl

/-- Catalogue lookup of the form id "potential-negative". -/
@[simp] theorem createForm_potential_negative (h k : String) :
    createForm "potential-negative" h k =
      some { id := "potential-negative", name := "Potential (Negative)",
             nameJapanese := "可能形否定", kanji := k, hiragana := h,
             romaji := hiraganaToRomaji h, formality := .plain,
             category := .potential } := rfl

/-- Catalogue lookup of the form id "passive-plain". -/
@[simp] theorem createForm_passive_plain (h k : String) :
    createForm "passive-plain" h k =
      some { id := "passive-plain", name := "Passive (Plain)",
             nameJapanese := "受身形", kanji := k, hiragana := h,
             romaji := hiraganaToRomaji h, formality := .plain,
             category := .passive } := rfl

/-- Catalogue lookup of the form id "passive-polite". -/
@[simp] theorem createForm_passive_polite (h k : String) :
    createForm "passive-polite" h k =
      some { id := "passive-polite", name := "Passive (Polite)",
             nameJapanese := "受身形丁寧", kanji := k, hiragana := h,
             romaji := hiraganaToRomaji h, formality := .polite,
             category := .passive } := rfl

/-- Catalogue lookup of the form id "causative-plain". -/
@[simp] theorem createForm_causative_plain (h k : String) :
    createForm "causative-plain" h k =
      some { id := "causative-plain", name := "Causative (Plain)",
             nameJapanese := "使役形", kanji := k, hiragana := h,
             romaji := hiraganaToRomaji h, formality := .plain,
             category := .causative } := rfl

/-- Catalogue lookup of the form id "causative-polite". -/
@[simp] theorem createForm_causative_polite (h k : String) :
    createForm "causative-polite" h k =
      some { id := "causative-polite", name := "Causative (Polite)",
             nameJapanese := "使役形丁寧", kanji := k, hiragana := h,
             romaji := hiraganaToRomaji h, formality := .polite,
             category := .causative } := rfl

/-- Catalogue lookup of the form id "causative-passive-plain". -/
@[simp] theorem createForm_causative_passive_plain (h k : String) :
    createForm "causative-passive-plain" h k =
      some { id := "causative-passive-plain", name := "Causative-Passive (Plain)",
             nameJapanese := "使役受身形", kanji := k, hiragana := h,
             romaji := hiraganaToRomaji h, formality := .plain,
             category := .causativePassive } := rfl

/-- Catalogue lookup of the form id "causative-passive-polite". -/
@[simp] theorem createForm_causative_passive_polite (h k : String) :
    createForm "causative-passive-polite" h k =
      some { id := "causative-passive-polite", name := "Causative-Passive (Polite)",
             nameJapanese := "使役受身形丁寧", kanji := k, hiragana := h,
             romaji := hiraganaToRomaji h, formality := .polite,
             category := .causativePassive } := rfl

/-- Catalogue lookup of the form id "imperative-plain". -/
@[simp] theorem createForm_imperative_plain (h k : String) :
    createForm "imperative-plain" h k =
      some { id := "imperative-plain", name := "Imperative (Plain)",
             nameJapanese := "命令形", kanji := k, hiragana := h,
             romaji := hiraganaToRomaji h, formality := .plain,
             category := .imperative } := rfl

/-- Catalogue lookup of the form id "imperative-polite". -/
@[simp] theorem createForm_imperative_polite (h k : String) :
    createForm "imperative-polite" h k =
      some { id := "imperative-polite", name := "Imperative (Polite)",
             nameJapanese := "てください", kanji := k, hiragana := h,
             romaji := hiraganaToRomaji h, formality := .polite,
             category := .imperative } := rfl

/-- Catalogue lookup of the form id "imperative-negative". -/
@[simp] theorem createForm_imperative_negative (h k : String) :
    createForm "imperative-negative" h k =
      some { id := "imperative-negative", name := "Negative Imperative",
             nameJapanese := "禁止形", kanji := k, hiragana := h,
             romaji := hiraganaToRomaji h, formality := .plain,
             category := .imperative } := rfl

/-- Catalogue lookup of the form id "conditional-ba". -/
@[simp] theorem createForm_conditional_ba (h k : String) :
    createForm "conditional-ba" h k =
      some { id := "conditional-ba", name := "Ba Form (Conditional)",
             nameJapanese := "ば形", kanji := k, hiragana := h,
             romaji := hiraganaToRomaji h, formality := .plain,
             category := .conditional } := rfl

/-- Catalogue lookup of the form id "conditional-tara". -/
@[simp] theorem createForm_conditional_tara (h k : String) :
    createForm "conditional-tara" h k =
      some { id := "conditional-tara", name := "Tara Form (Conditional)",
             nameJapanese := "たら形", kanji := k, hiragana := h,
             romaji := hiraganaToRomaji h, formality := .plain,
             category := .conditional } := rfl

/-- Catalogue lookup of the form id "conditional-nara". -/
@[simp] theorem createForm_conditional_nara (h k : String) :
    createForm "conditional-nara" h k =
      some { id := "conditional-nara", name := "Nara Form (Conditional)",
             nameJapanese := "なら形", kanji := k, hiragana := h,
             romaji := hiraganaToRomaji h, formality := .plain,
             category := .conditional } := rfl

/-- Catalogue lookup of the form id "tai". -/
@[simp] theorem createForm_tai (h k : String) :
    createForm "tai" h k =
      some { id := "tai", name := "Tai Form (Want to)",
             nameJapanese := "たい形", kanji := k, hiragana := h,
             romaji := hiraganaToRomaji h, formality := .plain,
             category := .taiForm } := rfl

/-- Catalogue lookup of the form id "takunai". -/
@[simp] theorem createForm_takunai (h k : String) :
    createForm "takunai" h k =
      some { id := "takunai", name := "Takunai (Don't want to)",
             nameJapanese := "たくない", kanji := k, hiragana := h,
             romaji := hiraganaToRomaji h, formality := .plain,
             category := .taiForm } := rfl

/-- Catalogue lookup of the form id "takatta". -/
@[simp] theorem createForm_takatta (h k : String) :
    createForm "takatta" h k =
      some { id := "takatta", name := "Takatta (Wanted to)",
             nameJapanese := "たかった", kanji := k, hiragana := h,
             romaji := hiraganaToRomaji h, formality := .plain,
             category := .taiForm } := rfl

/-- Catalogue lookup of the form id "takunakatta". -/
@[simp] theorem createForm_takunakatta (h k : String) :
    createForm "takunakatta" h k =
      some { id := "takunakatta", name := "Takunakatta (Didn't want to)",
             nameJapanese := "たくなかった", kanji := k, hiragana := h,
             romaji := hiraganaToRomaji h, formality := .plain,
             category := .taiForm } := rfl

/-- Catalogue lookup of the form id "progressive-present". -/
@[simp] theorem createForm_progressive_present (h k : String) :
    createForm "progressive-present" h k =
      some { id := "progressive-present", name := "Te-iru (Continuous)",
             nameJapanese := "ている", kanji := k, hiragana := h,
             romaji := hiraganaToRomaji h, formality := .plain,
             category := .progressive } := rfl

/-- Catalogue lookup of the form id "progressive-past". -/
@[simp] theorem createForm_progressive_past (h k : String) :
    createForm "progressive-past" h k =
      some { id := "progressive-past", name := "Te-ita (Past Continuous)",
             nameJapanese := "ていた", kanji := k, hiragana := h,
             romaji := hiraganaToRomaji h, formality := .plain,
             category := .progressive } := rfl

/-- Catalogue lookup of the form id "honorific-respectful". -/
@[simp] theorem createForm_honorific_respectful (h k : String) :
    createForm "honorific-respectful" h k =
      some { id := "honorific-respectful", name := "Respectful (O-verb-ni-naru)",
             nameJapanese := "お〜になる", kanji := k, hiragana := h,
             romaji := hiraganaToRomaji h, formality := .polite,
             category := .honorific } := rfl

/-- Catalogue lookup of the form id "honorific-humble". -/
@[simp] theorem createForm_honorific_humble (h k : String) :
    createForm "honorific-humble" h k =
      some { id := "honorific-humble", name := "Humble (O-verb-suru)",
             nameJapanese := "お〜する", kanji := k, hiragana := h,
             romaji := hiraganaToRomaji h, formality := .polite,
             category := .honorific } := rfl

/-- Category tags of the 34 catalogue entries, in the shared emission order
of all seven generator tables. -/
def emittedCategories : List ConjugationCategory :=
  [.basic, .basic, .polite, .polite, .polite, .polite, .negative, .negative, .past, .volitional, .volitional, .potential, .potential, .potential, .passive, .passive, .causative, .causative, .causativePassive, .causativePassive, .imperative, .imperative, .imperative, .conditional, .conditional, .conditional, .taiForm, .taiForm, .taiForm, .taiForm, .progressive, .progressive, .honorific, .honorific]

-- ===========================================================================
-- Generic helper lemmas on the string primitives
-- ===========================================================================

/-- Data of a rebuilt string. -/
@[simp] theorem stringData_mk (l : List Char) : (String.mk l).data = l := rfl

/-- Appending two character-list strings appends the lists. -/
theorem stringMk_append (a b : List Char) :
    String.mk a ++ String.mk b = String.mk (a ++ b) := rfl

/-- Data of an appended string. -/
theorem stringData_append (s t : String) : (s ++ t).data = s.data ++ t.data := rfl

/-- Rebuilding a string from its data is the identity. -/
theorem stringMk_data (s : String) : String.mk s.data = s := rfl

/-- Any string splits as its stem (all but the last character) followed by
its last character. -/
theorem getStem_append_getLastChar (s : String) : getStem s ++ getLastChar s = s := by
  show String.mk _ ++ String.mk _ = s
  rw [stringMk_append, List.take_append_drop]

/-- Head of a `dropWhile` result falsifies the predicate. -/
theorem dropWhile_head_false {p : Char → Bool} :
    ∀ {l : List Char} {a : Char} {t : List Char},
      l.dropWhile p = a :: t → p a = false := by
  intro l
  induction l with
  | nil => intro a t h; simp [List.dropWhile] at h
  | cons c cs ih =>
    intro a t h
    rw [List.dropWhile_cons] at h
    by_cases hc : p c = true
    · exact ih (by simpa [hc] using h)
    · simp [hc] at h
      simp [← h.1, Bool.eq_false_iff.mpr hc]

/-- Dropping twice with the same predicate drops once. -/
theorem dropWhile_dropWhile (p : Char → Bool) (l : List Char) :
    (l.dropWhile p).dropWhile p = l.dropWhile p := by
  cases h : l.dropWhile p with
  | nil => simp
  | cons a t => rw [List.dropWhile_cons, dropWhile_head_false h]; simp

/-- A leading-then-trailing trimmed list is stable under another leading
drop: its head, when present, is the head of the first `dropWhile`. -/
theorem trimmedList_dropWhile (p : Char → Bool) (d : List Char) :
    (((d.dropWhile p).reverse.dropWhile p).reverse).dropWhile p
      = ((d.dropWhile p).reverse.dropWhile p).reverse := by
  cases hBc : ((d.dropWhile p).reverse.dropWhile p).reverse with
  | nil => simp [hBc]
  | cons a t =>
    have hpre : a :: t <+: d.dropWhile p := by
      rw [← hBc]
      have h2 := List.reverse_prefix.mpr
        (List.dropWhile_suffix (l := (d.dropWhile p).reverse) p)
      simpa using h2
    obtain ⟨u, hu⟩ := hpre
    have ha : p a = false := by
      cases hAc : d.dropWhile p with
      | nil => rw [hAc] at hu; simp at hu
      | cons a2 t2 =>
        have ha2 : p a2 = false := dropWhile_head_false hAc
        rw [hAc] at hu
        have heq : a = a2 := by
          have := congrArg List.head? hu
          simpa using this
        rw [heq]; exact ha2
    rw [List.dropWhile_cons, ha]
    simp

/-- A string whose characters are all JS whitespace trims to the empty
string; so does the empty string. -/
theorem jsTrim_eq_empty {s : String}
    (h : ∀ c ∈ s.data, isJsWhitespace c = true) : jsTrim s = "" := by
  unfold jsTrim
  rw [List.dropWhile_eq_nil_iff.mpr h]
  rfl

/-- JavaScript trim is idempotent. -/
theorem jsTrim_idem (s : String) : jsTrim (jsTrim s) = jsTrim s := by
  have key :
      ((((((s.data.dropWhile isJsWhitespace).reverse.dropWhile
            isJsWhitespace).reverse).dropWhile isJsWhitespace).reverse.dropWhile
              isJsWhitespace).reverse)
        = ((s.data.dropWhile isJsWhitespace).reverse.dropWhile
            isJsWhitespace).reverse := by
    rw [trimmedList_dropWhile, List.reverse_reverse]
    exact trimmedList_dropWhile isJsWhitespace s.data
  exact congrArg String.mk key

/-- Boolean `endsWith` unfolds to list suffixhood. -/
theorem jsEndsWith_iff {s pat : String} :
    jsEndsWith s pat = true ↔ pat.data <:+ s.data := by
  simp [jsEndsWith]

/-- Splitting a string at a known suffix: the leading part concatenated with
the suffix is the whole string, and dropping the leading part's characters
leaves exactly the suffix. -/
theorem compound_parts {verb suf : String} (hsuf : suf.data <:+ verb.data) :
    jsDropLastChars verb suf.data.length ++ suf = verb ∧
    jsDropChars verb (jsDropLastChars verb suf.data.length).data.length = suf := by
  obtain ⟨t, ht⟩ := hsuf
  have hstem : (jsDropLastChars verb suf.data.length).data = t := by
    simp only [jsDropLastChars, stringData_mk]
    rw [← ht, List.length_append, Nat.add_sub_cancel, List.take_left]
  constructor
  · calc jsDropLastChars verb suf.data.length ++ suf
        = String.mk ((jsDropLastChars verb suf.data.length).data ++ suf.data) := rfl
      _ = String.mk verb.data := by rw [hstem, ht]
      _ = verb := rfl
  · calc jsDropChars verb (jsDropLastChars verb suf.data.length).data.length
        = String.mk (verb.data.drop t.length) := by rw [hstem]; rfl
      _ = String.mk ((t ++ suf.data).drop t.length) := by rw [ht]
      _ = String.mk suf.data := by rw [List.drop_left]
      _ = suf := rfl

/-- Characterization of the compound-suffix search loop. -/
theorem findCompoundSuffix_eq_some :
    ∀ {sufs : List String} {verb p : String},
      findCompoundSuffix sufs verb = some p →
      ∃ suf ∈ sufs, suf.data <:+ verb.data ∧
        suf.data.length < verb.data.length ∧
        p = jsDropLastChars verb suf.data.length := by
  intro sufs
  induction sufs with
  | nil => intro verb p h; simp [findCompoundSuffix] at h
  | cons suf rest ih =>
    intro verb p h
    rw [findCompoundSuffix] at h
    split at h
    case isTrue hc =>
      rw [Bool.and_eq_true, decide_eq_true_eq] at hc
      exact ⟨suf, List.mem_cons_self suf rest,
        jsEndsWith_iff.mp hc.1, hc.2, (Option.some_inj.mp h).symm⟩
    case isFalse hc =>
      obtain ⟨s2, hs2, hrest⟩ := ih h
      exact ⟨s2, List.mem_cons_of_mem suf hs2, hrest⟩

/-- The last character of a string with a known non-empty suffix is the last
character of the suffix. -/
theorem getLastChar_of_suffix {verb suf : String}
    (hsuf : suf.data <:+ verb.data) (hne : suf.data ≠ []) :
    getLastChar verb = getLastChar suf := by
  obtain ⟨t, ht⟩ := hsuf
  have hpos : 0 < suf.data.length := List.length_pos.mpr hne
  unfold getLastChar
  rw [← ht, List.length_append]
  have harith : t.length + suf.data.length - 1 = t.length + (suf.data.length - 1) := by
    omega
  rw [harith, List.drop_append]

-- ===========================================================================
-- Classifier shape lemmas
-- ===========================================================================

/-- Boolean `List.contains` on strings is membership. -/
theorem stringContains_iff {l : List String} {a : String} :
    l.contains a = true ↔ a ∈ l := by
  show l.elem a = true ↔ a ∈ l
  exact List.elem_iff

/-- A lookup hit in a record table is a table entry with the looked-up key. -/
theorem table_lookup_mem {α : Type} {table : List (String × α)} {k : String} {a : α}
    (h : (table.find? (fun kv => kv.1 == k)).map (fun kv => kv.2) = some a) :
    (k, a) ∈ table := by
  obtain ⟨kv, hfind, rfl⟩ := Option.map_eq_some'.mp h
  have hmem := List.mem_of_find?_eq_some hfind
  have hbeq := List.find?_some hfind
  rw [beq_iff_eq] at hbeq
  rw [← hbeq]
  exact hmem

/-- Every Godan ending character has a row in the ending table. -/
theorem GODAN_ENDINGS_isSome_of_mem {e : String} (h : e ∈ GODAN_ENDING_CHARS) :
    ∃ m, GODAN_ENDINGS e = some m := by
  simp only [GODAN_ENDING_CHARS, GODAN_ENDINGS_TABLE, List.map_cons, List.map_nil,
    List.mem_cons, List.not_mem_nil, or_false] at h
  rcases h with rfl | rfl | rfl | rfl | rfl | rfl | rfl | rfl | rfl <;> exact ⟨_, rfl⟩

/-- Every key of the irregular table ends in る or く. -/
theorem IRREGULAR_VERBS_lastChar {verb : String} {t : IrregularType}
    (h : IRREGULAR_VERBS verb = some t) :
    getLastChar verb = "る" ∨ getLastChar verb = "く" := by
  have hmem := table_lookup_mem (h := h)
  simp only [IRREGULAR_VERBS_TABLE, List.mem_cons, List.not_mem_nil, or_false,
    Prod.mk.injEq] at hmem
  rcases hmem with ⟨rfl, -⟩ | ⟨rfl, -⟩ | ⟨rfl, -⟩ | ⟨rfl, -⟩ | ⟨rfl, -⟩ | ⟨rfl, -⟩ |
    ⟨rfl, -⟩ | ⟨rfl, -⟩ | ⟨rfl, -⟩ | ⟨rfl, -⟩ | ⟨rfl, -⟩ <;> decide

/-- Complete case analysis of a successful classification: trimmed input,
script validation, and the branch that produced the `VerbInfo`. -/
theorem classifyVerb_ok_shape {s : String} {v : VerbInfo}
    (h : classifyVerb s = .ok v) :
    jsTrim s ≠ "" ∧ isJapanese (jsTrim s) = true ∧
    v.dictionaryForm = jsTrim s ∧ v.reading = jsTrim s ∧
    v.romaji = hiraganaToRomaji (jsTrim s) ∧
    ((∃ pfx, detectSuruCompound (jsTrim s) = some pfx ∧
        v.type = .irregular ∧ v.irregularType = some .suru ∧
        v.stem = pfx ∧ v.ending = jsDropChars (jsTrim s) pfx.data.length ∧
        v.compoundPrefix = some pfx) ∨
     (∃ pfx, detectKuruCompound (jsTrim s) = some pfx ∧
        v.type = .irregular ∧ v.irregularType = some .kuru ∧
        v.stem = pfx ∧ v.ending = jsDropChars (jsTrim s) pfx.data.length ∧
        v.compoundPrefix = some pfx) ∨
     (∃ t, IRREGULAR_VERBS (jsTrim s) = some t ∧
        v.type = .irregular ∧ v.irregularType = some t ∧
        v.stem = getStem (jsTrim s) ∧ v.ending = getLastChar (jsTrim s) ∧
        v.compoundPrefix = none) ∨
     (looksLikeIchidan (jsTrim s) = true ∧
        v.type = .ichidan ∧ v.irregularType = none ∧
        v.stem = getStem (jsTrim s) ∧ v.ending = "る" ∧
        v.compoundPrefix = none) ∨
     (isGodanVerb (jsTrim s) = true ∧ IRREGULAR_VERBS (jsTrim s) = none ∧
        v.type = .godan ∧ v.irregularType = none ∧
        v.stem = getStem (jsTrim s) ∧ v.ending = getLastChar (jsTrim s) ∧
        v.compoundPrefix = none)) := by
  unfold classifyVerb at h
  split at h
  case isTrue => exact absurd h (by simp)
  case isFalse hne =>
    simp only [] at h
    split at h
    case isTrue => exact absurd h (by simp)
    case isFalse hjap =>
      refine ⟨hne, by simpa using hjap, ?_⟩
      split at h
      case h_1 pfx hsuru =>
        obtain rfl := Except.ok.inj h
        exact ⟨rfl, rfl, rfl, Or.inl ⟨pfx, hsuru, rfl, rfl, rfl, rfl, rfl⟩⟩
      case h_2 hnsuru =>
        split at h
        case h_1 pfx hkuru =>
          obtain rfl := Except.ok.inj h
          exact ⟨rfl, rfl, rfl, Or.inr (Or.inl ⟨pfx, hkuru, rfl, rfl, rfl, rfl, rfl⟩)⟩
        case h_2 hnkuru =>
          split at h
          case h_1 t hirr =>
            obtain rfl := Except.ok.inj h
            exact ⟨rfl, rfl, rfl, Or.inr (Or.inr (Or.inl ⟨t, hirr, rfl, rfl, rfl, rfl, rfl⟩))⟩
          case h_2 hnirr =>
            split at h
            case isTrue hich =>
              obtain rfl := Except.ok.inj h
              rw [Bool.and_eq_true] at hich
              exact ⟨rfl, rfl, rfl, Or.inr (Or.inr (Or.inr (Or.inl
                ⟨hich.1, rfl, rfl, rfl, rfl, rfl⟩)))⟩
            case isFalse =>
              split at h
              case isTrue hgod =>
                obtain rfl := Except.ok.inj h
                exact ⟨rfl, rfl, rfl, Or.inr (Or.inr (Or.inr (Or.inr
                  ⟨hgod, hnirr, rfl, rfl, rfl, rfl, rfl⟩)))⟩
              case isFalse => exact absurd h (by simp)

-- ===========================================================================
-- Generator reduction lemmas: success and emitted categories
-- ===========================================================================

/-- An if-then-else of two hits is a hit of the if-then-else. -/
@[simp] theorem ite_some {α : Type} (c : Prop) [Decidable c] (a b : α) :
    (if c then some a else some b) = some (if c then a else b) := by
  split <;> rfl

/-- Unpacking an `Option.map` hit on a generator result. -/
theorem of_map_cats {o : Option (List ConjugationForm)}
    {cats : List ConjugationCategory}
    (h : o.map (fun l => l.map (fun f => f.category)) = some cats) :
    ∃ fs, o = some fs ∧ fs.map (fun f => f.category) = cats :=
  Option.map_eq_some'.mp h

/-- する generator: always succeeds, categories in catalogue order. -/
theorem conjugateSuru_cats (v : VerbInfo) :
    (conjugateSuru v).map (fun l => l.map (fun f => f.category))
      = some emittedCategories := by
  simp [conjugateSuru, pushForms, emittedCategories]

/-- 来る generator: always succeeds, categories in catalogue order. -/
theorem conjugateKuru_cats (v : VerbInfo) :
    (conjugateKuru v).map (fun l => l.map (fun f => f.category))
      = some emittedCategories := by
  simp [conjugateKuru, pushForms, emittedCategories]

/-- ある generator: always succeeds, categories in catalogue order. -/
theorem conjugateAru_cats (v : VerbInfo) :
    (conjugateAru v).map (fun l => l.map (fun f => f.category))
      = some emittedCategories := by
  simp [conjugateAru, pushForms, emittedCategories]

/-- 行く generator: always succeeds, categories in catalogue order. -/
theorem conjugateIku_cats (v : VerbInfo) :
    (conjugateIku v).map (fun l => l.map (fun f => f.category))
      = some emittedCategories := by
  simp [conjugateIku, pushForms, emittedCategories]

/-- Honorific generator: always succeeds, categories in catalogue order. -/
theorem conjugateHonorific_cats (v : VerbInfo) :
    (conjugateHonorific v).map (fun l => l.map (fun f => f.category))
      = some emittedCategories := by
  simp [conjugateHonorific, pushForms, emittedCategories]

/-- Ichidan generator: succeeds on Ichidan verbs, categories in catalogue
order. -/
theorem conjugateIchidan_cats {v : VerbInfo} (h : v.type = .ichidan) :
    (conjugateIchidan v).map (fun l => l.map (fun f => f.category))
      = some emittedCategories := by
  simp [conjugateIchidan, pushForms, emittedCategories, h]

/-- Godan generator: succeeds whenever the ending has a table row, categories
in catalogue order. -/
theorem conjugateGodan_cats {v : VerbInfo} {m : GodanConjugationMap}
    (h : v.type = .godan) (hm : GODAN_ENDINGS v.ending = some m) :
    (conjugateGodan v).map (fun l => l.map (fun f => f.category))
      = some emittedCategories := by
  simp [conjugateGodan, pushForms, emittedCategories, h, hm,
    getGodanTeForm, getGodanTaForm, getGodanStem, GodanConjugationMap.get]

/-- Every successfully classified verb has a successful generator run whose
category sequence is the catalogue order. -/
theorem generator_succeeds {s : String} {v : VerbInfo}
    (hc : classifyVerb s = .ok v) :
    ∃ fs, getConjugationFunction v v = some fs ∧
      fs.map (fun f => f.category) = emittedCategories := by
  obtain ⟨-, -, -, -, -, hbr⟩ := classifyVerb_ok_shape hc
  rcases hbr with ⟨pfx, -, htype, hsub, -, -, -⟩ | ⟨pfx, -, htype, hsub, -, -, -⟩ |
      ⟨t, -, htype, hsub, -, -, -⟩ | ⟨-, htype, -, -, -, -⟩ |
      ⟨hgod, -, htype, -, -, hend, -⟩
  · refine of_map_cats ?_
    rw [getConjugationFunction, htype]
    simp only [conjugateIrregular, htype, hsub]
    simpa using conjugateSuru_cats v
  · refine of_map_cats ?_
    rw [getConjugationFunction, htype]
    simp only [conjugateIrregular, htype, hsub]
    simpa using conjugateKuru_cats v
  · refine of_map_cats ?_
    rw [getConjugationFunction, htype]
    cases t <;>
      (simp only [conjugateIrregular, htype, hsub]
       first
         | simpa using conjugateSuru_cats v
         | simpa using conjugateKuru_cats v
         | simpa using conjugateAru_cats v
         | simpa using conjugateIku_cats v
         | simpa using conjugateHonorific_cats v)
  · refine of_map_cats ?_
    rw [getConjugationFunction, htype]
    exact conjugateIchidan_cats htype
  · refine of_map_cats ?_
    rw [getConjugationFunction, htype]
    have hmem : getLastChar (jsTrim s) ∈ GODAN_ENDING_CHARS := by
      rw [isGodanVerb] at hgod
      exact stringContains_iff.mp hgod
    obtain ⟨m, hm⟩ := GODAN_ENDINGS_isSome_of_mem (hend ▸ hmem)
    exact conjugateGodan_cats htype hm

/-- The emitted category sequence has 34 entries. -/
theorem emittedCategories_length : emittedCategories.length = 34 := rfl

/-- Every one of the 14 categories occurs in the emitted sequence. -/
theorem emittedCategories_complete (c : ConjugationCategory) :
    c ∈ emittedCategories := by
  cases c <;> decide

-- ===========================================================================
-- Facade-level lemmas
-- ===========================================================================

/-- Unfolding a successful facade call: validation passed, classification
succeeded on the result's verb, the dispatched generator produced the
result's forms, and the timestamp is the captured one. -/
theorem conjugate_ok_elim {s : String} {now : Nat} {r : ConjugationResult}
    (h : conjugate s now = .ok r) :
    validateInput s = none ∧ classifyVerb s = .ok r.verb ∧
    getConjugationFunction r.verb r.verb = some r.forms ∧ r.timestamp = now := by
  unfold conjugate at h
  split at h
  · exact absurd h (by simp)
  next hval =>
    split at h
    · exact absurd h (by simp)
    next v hcls =>
      split at h
      · exact absurd h (by simp)
      next fs hgen =>
        obtain rfl := Except.ok.inj h
        exact ⟨hval, hcls, hgen, rfl⟩

/-- A facade call with passing validation and failing classification
surfaces the classifier's error unchanged. -/
theorem conjugate_classify_error {s : String} {e : ConjugationError} (now : Nat)
    (hval : validateInput s = none) (hcls : classifyVerb s = .error e) :
    conjugate s now = .error e := by
  unfold conjugate
  rw [hval, hcls]

/-- A facade call with passing validation, successful classification and a
successful generator run returns the assembled result. -/
theorem conjugate_ok_intro {s : String} {v : VerbInfo}
    {fs : List ConjugationForm} (now : Nat) (hval : validateInput s = none)
    (hcls : classifyVerb s = .ok v)
    (hgen : getConjugationFunction v v = some fs) :
    conjugate s now = .ok { verb := v, forms := fs, timestamp := now } := by
  unfold conjugate
  rw [hval, hcls]
  simp [hgen]

/-- Passing validation means a non-empty trimmed input over the Japanese
scripts.  (`containsOnlyJapanese` re-trims; trimming is idempotent.) -/
theorem validateInput_none_elim {s : String} (h : validateInput s = none) :
    jsTrim s ≠ "" ∧ isJapanese (jsTrim s) = true := by
  unfold validateInput at h
  split at h
  · exact absurd h (by simp)
  next h1 =>
    simp only [] at h
    split at h
    · exact absurd h (by simp)
    next h2 =>
      refine ⟨?_, ?_⟩
      · simpa [isEmptyOrWhitespace] using h1
      · have := jsTrim_idem s
        simp only [containsOnlyJapanese, Bool.not_eq_true', Bool.not_eq_false] at h2
        rwa [this] at h2

/-- Whitespace-only input fails validation with the `EMPTY_INPUT` error. -/
theorem validateInput_empty {s : String} (h : jsTrim s = "") :
    validateInput s
      = some { code := .EMPTY_INPUT, message := "Please enter a Japanese verb" } := by
  simp [validateInput, isEmptyOrWhitespace, h]

/-- A facade call with failing validation returns the validation error. -/
theorem conjugate_validation_error {s : String} {e : ConjugationError} (now : Nat)
    (hval : validateInput s = some e) : conjugate s now = .error e := by
  unfold conjugate
  rw [hval]

/-- A matched compound suffix whose listed suffixes all end in る forces the
verb's last character to る. -/
theorem findCompoundSuffix_lastChar (sufs : List String) {verb p : String}
    (hsufs : ∀ suf ∈ sufs, getLastChar suf = "る" ∧ suf.data ≠ [])
    (h : findCompoundSuffix sufs verb = some p) :
    getLastChar verb = "る" := by
  obtain ⟨suf, hmem, hsuffix, -, -⟩ := findCompoundSuffix_eq_some h
  obtain ⟨hlast, hne⟩ := hsufs suf hmem
  rw [getLastChar_of_suffix hsuffix hne, hlast]

/-- A verb that looks Ichidan ends in る. -/
theorem looksLikeIchidan_lastChar {verb : String}
    (h : looksLikeIchidan verb = true) : getLastChar verb = "る" := by
  by_contra hlc
  unfold looksLikeIchidan at h
  by_cases hlen : verb.data.length < 2
  · rw [if_pos hlen] at h
    exact Bool.false_ne_true h
  · rw [if_neg hlen, if_pos hlc] at h
    exact Bool.false_ne_true h

-- ===========================================================================
-- Claim theorems
-- ===========================================================================

/-- Facts shared by both compound detectors: the matched prefix, the
leftover ending, and their concatenation. -/
theorem compound_branch_facts {sufs : List String} {verb pfx : String}
    (h : findCompoundSuffix sufs verb = some pfx) :
    ∃ suf ∈ sufs, jsDropChars verb pfx.data.length = suf ∧ pfx ++ suf = verb := by
  obtain ⟨suf, hmem, hsuffix, hlen, hpeq⟩ := findCompoundSuffix_eq_some h
  obtain ⟨happ, hdrop⟩ := compound_parts hsuffix
  subst hpeq
  exact ⟨suf, hmem, hdrop, happ⟩

/-- C3: for every successful classification, a `VerbInfo` without a compound
prefix satisfies stem ++ ending = dictionaryForm, and one with a compound
prefix satisfies compoundPrefix ++ ending = dictionaryForm with the ending
being the irregular base form itself (する, くる or 来る).  (The embedding's
`VerbInfo` is an immutable value; no generator can mutate it.) -/
theorem classifyVerb_stem_ending_invariant (s : String) (v : VerbInfo)
    (h : classifyVerb s = .ok v) :
    (v.compoundPrefix = none → v.stem ++ v.ending = v.dictionaryForm) ∧
    (∀ p, v.compoundPrefix = some p →
      p ++ v.ending = v.dictionaryForm ∧
      (v.ending = "する" ∨ v.ending = "くる" ∨ v.ending = "来る")) := by
  obtain ⟨-, -, hdict, -, -, hbr⟩ := classifyVerb_ok_shape h
  rcases hbr with ⟨pfx, hdet, -, -, hstem, hend, hcp⟩ | ⟨pfx, hdet, -, -, hstem, hend, hcp⟩ |
      ⟨t, -, -, -, hstem, hend, hcp⟩ | ⟨hich, -, -, hstem, hend, hcp⟩ |
      ⟨-, -, -, -, hstem, hend, hcp⟩
  · constructor
    · intro hnone; rw [hcp] at hnone; exact absurd hnone (by simp)
    · intro p hp
      rw [hcp] at hp
      obtain rfl := Option.some_inj.mp hp
      obtain ⟨suf, hmem, hdrop, happ⟩ := compound_branch_facts hdet
      simp only [SURU_COMPOUND_SUFFIXES, List.mem_cons, List.not_mem_nil, or_false] at hmem
      subst hmem
      rw [hend, hdrop, hdict, happ]
      exact ⟨rfl, Or.inl rfl⟩
  · constructor
    · intro hnone; rw [hcp] at hnone; exact absurd hnone (by simp)
    · intro p hp
      rw [hcp] at hp
      obtain rfl := Option.some_inj.mp hp
      obtain ⟨suf, hmem, hdrop, happ⟩ := compound_branch_facts hdet
      simp only [KURU_COMPOUND_SUFFIXES, List.mem_cons, List.not_mem_nil, or_false] at hmem
      rcases hmem with rfl | rfl
      · rw [hend, hdrop, hdict, happ]
        exact ⟨rfl, Or.inr (Or.inl rfl)⟩
      · rw [hend, hdrop, hdict, happ]
        exact ⟨rfl, Or.inr (Or.inr rfl)⟩
  · refine ⟨fun _ => ?_, fun p hp => absurd (hcp ▸ hp) (by simp)⟩
    rw [hstem, hend, hdict]
    exact getStem_append_getLastChar (jsTrim s)
  · refine ⟨fun _ => ?_, fun p hp => absurd (hcp ▸ hp) (by simp)⟩
    rw [hstem, hend, hdict, ← looksLikeIchidan_lastChar hich]
    exact getStem_append_getLastChar (jsTrim s)
  · refine ⟨fun _ => ?_, fun p hp => absurd (hcp ▸ hp) (by simp)⟩
    rw [hstem, hend, hdict]
    exact getStem_append_getLastChar (jsTrim s)

/-- Witness for C3 at the compound verb 勉強する. -/
theorem classifyVerb_stem_ending_invariant_witness :
    ("勉強" : String) ++ "する" = "勉強する" := by
  have h := classifyVerb_stem_ending_invariant "勉強する"
    { dictionaryForm := "勉強する", reading := "勉強する",
      romaji := hiraganaToRomaji "勉強する", type := .irregular, stem := "勉強",
      ending := "する", irregularType := some .suru, compoundPrefix := some "勉強" }
    rfl
  exact (h.2 "勉強" rfl).1

/-- C9: the empty string, and every non-empty string of spaces, tabs,
newlines and carriage returns, is rejected by the facade with the
`EMPTY_INPUT` error value (so no conjugation forms are produced). -/
theorem whitespace_input_rejected (s : String) (now : Nat)
    (h : s = "" ∨ (s.data ≠ [] ∧
      ∀ c ∈ s.data, c = ' ' ∨ c = '\t' ∨ c = '\n' ∨ c = '\r')) :
    conjugate s now
      = .error { code := .EMPTY_INPUT, message := "Please enter a Japanese verb" } := by
  have htrim : jsTrim s = "" := by
    rcases h with rfl | ⟨-, hall⟩
    · rfl
    · apply jsTrim_eq_empty
      intro c hc
      rcases hall c hc with rfl | rfl | rfl | rfl <;> decide
  exact conjugate_validation_error now (validateInput_empty htrim)

/-- Witness for C9 at three spaces (the spec's example scenario 6). -/
theorem whitespace_input_rejected_witness :
    conjugate "   " 0
      = .error { code := .EMPTY_INPUT, message := "Please enter a Japanese verb" } :=
  whitespace_input_rejected "   " 0 (Or.inr ⟨by decide, by decide⟩)

/-- Pointwise form comparison is reflexive. -/
theorem formsEquivalent_refl (l : List ConjugationForm) :
    formsEquivalent l l = true := by
  induction l with
  | nil => rfl
  | cons f t ih => simp [formsEquivalent, ih]

/-- C8: deserializing the serialization of any result returns the result
itself, and the source's own structural-equivalence check
`areResultsEquivalent` (verb info including the optional fields, the ordered
form list with all eight fields, and the timestamp) accepts the round
trip. -/
theorem serialization_round_trip (r : ConjugationResult) :
    deserializeResult (serializeResult r) = r ∧
    areResultsEquivalent (deserializeResult (serializeResult r)) r = true := by
  refine ⟨rfl, ?_⟩
  show areResultsEquivalent r r = true
  simp [areResultsEquivalent, formsEquivalent_refl]

/-- C6: conjugating ある succeeds and produces the irregular negative ない
and past negative なかった, not the five-grade-style あらない and
あらなかった. -/
theorem aru_negative_forms (now : Nat) :
    ∃ r, conjugate "ある" now = .ok r ∧
      (r.forms.find? (fun f => f.id == "nai")).map (fun f => f.hiragana)
        = some "ない" ∧
      (r.forms.find? (fun f => f.id == "nakatta")).map (fun f => f.hiragana)
        = some "なかった" ∧
      ("ない" : String) ≠ "あらない" ∧ ("なかった" : String) ≠ "あらなかった" := by
  refine ⟨_, rfl, rfl, rfl, by decide, by decide⟩

/-- C5: for every verb classified as Ichidan, the generated potential-plain
form is stem ++ られる (the traditional suffix), the exposed helper returns
the colloquial stem ++ れる, the traditional suffix is the colloquial one
with exactly one extra leading character, and both forms extend the verb's
stem. -/
theorem ichidan_dual_potential (s : String) (v : VerbInfo)
    (_h : classifyVerb s = .ok v) (hty : v.type = .ichidan) :
    ∃ fs, conjugateIchidan v = some fs ∧
      (fs.find? (fun f => f.id == "potential-plain")).map (fun f => f.hiragana)
        = some (v.stem ++ "られる") ∧
      getIchidanColloquialPotential v = some (v.stem ++ "れる") ∧
      ("られる" : String) = "ら" ++ "れる" ∧
      ("られる" : String).data.length = ("れる" : String).data.length + 1 ∧
      v.stem.data <+: (v.stem ++ "られる").data ∧
      v.stem.data <+: (v.stem ++ "れる").data := by
  have h1 : (conjugateIchidan v).map
      (fun fs => (fs.find? (fun f => f.id == "potential-plain")).map
        (fun f => f.hiragana)) = some (some (v.stem ++ "られる")) := by
    simp [conjugateIchidan, pushForms, getIchidanStem, hty]
  obtain ⟨fs, hfs, hp⟩ := Option.map_eq_some'.mp h1
  refine ⟨fs, hfs, hp, ?_, by decide, by decide, ?_, ?_⟩
  · simp [getIchidanColloquialPotential, hty]
  · rw [stringData_append]; exact List.prefix_append _ _
  · rw [stringData_append]; exact List.prefix_append _ _

/-- Witness for C5 at 食べる in kana (たべる). -/
theorem ichidan_dual_potential_witness :
    ∃ fs, conjugateIchidan
        { dictionaryForm := "たべる", reading := "たべる",
          romaji := hiraganaToRomaji "たべる", type := .ichidan,
          stem := "たべ", ending := "る" } = some fs ∧
      (fs.find? (fun f => f.id == "potential-plain")).map (fun f => f.hiragana)
        = some ("たべ" ++ "られる") ∧
      getIchidanColloquialPotential
        { dictionaryForm := "たべる", reading := "たべる",
          romaji := hiraganaToRomaji "たべる", type := .ichidan,
          stem := "たべ", ending := "る" } = some ("たべ" ++ "れる") ∧
      ("られる" : String) = "ら" ++ "れる" ∧
      ("られる" : String).data.length = ("れる" : String).data.length + 1 ∧
      ("たべ" : String).data <+: (("たべ" : String) ++ "られる").data ∧
      ("たべ" : String).data <+: (("たべ" : String) ++ "れる").data :=
  ichidan_dual_potential "たべる"
    { dictionaryForm := "たべる", reading := "たべる",
      romaji := hiraganaToRomaji "たべる", type := .ichidan,
      stem := "たべ", ending := "る" } rfl rfl

/-- C7: the facade is deterministic and stateless.  Two calls on the same
input — with any timestamps — agree field-by-field on the verb info and on
every conjugation form, differing at most in the timestamp; failing calls
return the identical error; and in any sequence of interleaved calls each
call's outcome is a function of its own input and timestamp alone. -/
theorem conjugate_deterministic (s : String) (t1 t2 : Nat) :
    (∀ r1 r2, conjugate s t1 = .ok r1 → conjugate s t2 = .ok r2 →
      r1.verb = r2.verb ∧ r1.forms = r2.forms ∧
      r1.timestamp = t1 ∧ r2.timestamp = t2) ∧
    (∀ e1 e2, conjugate s t1 = .error e1 → conjugate s t2 = .error e2 →
      e1 = e2) ∧
    (∀ (calls : List (String × Nat)) (i : Nat),
      (runCalls calls)[i]? = (calls[i]?).map (fun c => conjugate c.1 c.2)) := by
  refine ⟨?_, ?_, ?_⟩
  · intro r1 r2 h1 h2
    obtain ⟨-, hcls1, hgen1, ht1⟩ := conjugate_ok_elim h1
    obtain ⟨-, hcls2, hgen2, ht2⟩ := conjugate_ok_elim h2
    have hv : r1.verb = r2.verb := by
      rw [hcls1] at hcls2
      exact Except.ok.inj hcls2
    have hf : r1.forms = r2.forms := by
      rw [hv] at hgen1
      rw [hgen1] at hgen2
      exact Option.some_inj.mp hgen2
    exact ⟨hv, hf, ht1, ht2⟩
  · intro e1 e2 h1 h2
    cases hv : validateInput s with
    | some e =>
      rw [conjugate_validation_error t1 hv] at h1
      rw [conjugate_validation_error t2 hv] at h2
      rw [← Except.error.inj h1, ← Except.error.inj h2]
    | none =>
      cases hc : classifyVerb s with
      | error e' =>
        rw [conjugate_classify_error t1 hv hc] at h1
        rw [conjugate_classify_error t2 hv hc] at h2
        rw [← Except.error.inj h1, ← Except.error.inj h2]
      | ok v =>
        cases hg : getConjugationFunction v v with
        | none =>
          have hfail : ∀ t : Nat, conjugate s t = .error
              { code := .CONJUGATION_FAILED,
                message := "An unexpected error occurred during conjugation" } := by
            intro t
            unfold conjugate
            rw [hv, hc]
            simp [hg]
          rw [hfail t1] at h1
          rw [hfail t2] at h2
          rw [← Except.error.inj h1, ← Except.error.inj h2]
        | some fs =>
          rw [conjugate_ok_intro t1 hv hc hg] at h1
          exact absurd h1 (by simp)
  · intro calls i
    simp [runCalls]

/-- Witness for C7: two calls on たべる with different timestamps. -/
theorem conjugate_deterministic_witness :
    ∃ r1 r2, conjugate "たべる" 0 = .ok r1 ∧ conjugate "たべる" 1 = .ok r2 ∧
      r1.verb = r2.verb ∧ r1.forms = r2.forms := by
  obtain ⟨det, -, -⟩ := conjugate_deterministic "たべる" 0 1
  exact ⟨_, _, rfl, rfl, (det _ _ rfl rfl).1, (det _ _ rfl rfl).2.1⟩

/-- C2: every successful facade call returns at least 30 forms (in fact 34)
and covers each of the 14 conjugation categories with at least one form. -/
theorem conjugate_forms_complete (s : String) (now : Nat) (r : ConjugationResult)
    (h : conjugate s now = .ok r) :
    30 ≤ r.forms.length ∧
    ∀ c : ConjugationCategory, ∃ f ∈ r.forms, f.category = c := by
  obtain ⟨-, hcls, hgen, -⟩ := conjugate_ok_elim h
  obtain ⟨fs, hfs, hcats⟩ := generator_succeeds hcls
  rw [hgen] at hfs
  obtain rfl := Option.some_inj.mp hfs
  constructor
  · have hlen : (r.forms.map (fun f => f.category)).length = 34 := by
      rw [hcats]
      rfl
    rw [List.length_map] at hlen
    omega
  · intro c
    have hc : c ∈ r.forms.map (fun f => f.category) :=
      hcats ▸ emittedCategories_complete c
    obtain ⟨f, hf, hfc⟩ := List.mem_map.mp hc
    exact ⟨f, hf, hfc⟩

/-- Witness for C2 at the Godan verb のむ. -/
theorem conjugate_forms_complete_witness :
    ∃ r, conjugate "のむ" 0 = .ok r ∧ 30 ≤ r.forms.length ∧
      ∀ c : ConjugationCategory, ∃ f ∈ r.forms, f.category = c :=
  ⟨_, rfl, conjugate_forms_complete "のむ" 0 _ rfl⟩

/-- Prefix of an appended string. -/
theorem prefix_left (p b : String) : p.data <+: (p ++ b).data := by
  rw [stringData_append]
  exact List.prefix_append _ _

/-- Infix via a leading prefix. -/
theorem infix_left (p b : String) : p.data <:+: (p ++ b).data :=
  (prefix_left p b).isInfix

/-- Infix in the middle of a three-part concatenation. -/
theorem infix_middle (a p b : String) : p.data <:+: (a ++ p ++ b).data := by
  rw [stringData_append, stringData_append]
  exact ⟨a.data, b.data, by simp⟩

/-- Every member of a successful `pushForms` run comes from one of the
entries through `createForm`. -/
theorem pushForms_members {P : ConjugationForm → Prop} :
    ∀ {entries : List (String × String × Option String)}
      {fs : List ConjugationForm},
      pushForms entries = some fs →
      (∀ e ∈ entries, ∀ f,
        createForm e.1 e.2.1 (e.2.2.getD e.2.1) = some f → P f) →
      ∀ f ∈ fs, P f := by
  intro entries
  induction entries with
  | nil =>
    intro fs h hP f hf
    rw [pushForms] at h
    obtain rfl := Option.some_inj.mp h
    exact absurd hf (List.not_mem_nil f)
  | cons e rest ih =>
    intro fs h hP f hf
    rw [pushForms] at h
    split at h
    · exact absurd h (by simp)
    next f0 hf0 =>
      split at h
      · exact absurd h (by simp)
      next fs0 hfs0 =>
        obtain rfl := Option.some_inj.mp h
        rcases List.mem_cons.mp hf with rfl | hmem
        · exact hP e (List.mem_cons_self e rest) f hf0
        · exact ih hfs0 (fun e2 he2 => hP e2 (List.mem_cons_of_mem e he2)) f hmem

/-- C4: for every verb classified with a compound prefix, the dispatched
irregular generator succeeds and every emitted form contains the prefix as a
substring of both its phonetic and its kanji rendering; in the two
honorific-category forms the prefix stands immediately after the politeness
marker お. -/
theorem compound_prefix_preserved (s : String) (v : VerbInfo) (p : String)
    (h : classifyVerb s = .ok v) (hp : v.compoundPrefix = some p) :
    ∃ fs, conjugateIrregular v = some fs ∧ ∀ f ∈ fs,
      p.data <:+: f.hiragana.data ∧ p.data <:+: f.kanji.data ∧
      (f.category = .honorific → ("お" ++ p).data <+: f.hiragana.data) := by
  obtain ⟨-, -, -, -, -, hbr⟩ := classifyVerb_ok_shape h
  rcases hbr with ⟨pfx, -, htype, hsub, -, -, hcp⟩ | ⟨pfx, -, htype, hsub, -, -, hcp⟩ |
      ⟨t, -, -, -, -, -, hcp⟩ | ⟨-, -, -, -, -, hcp⟩ | ⟨-, -, -, -, -, -, hcp⟩
  · obtain ⟨fs, hfs, -⟩ := of_map_cats (conjugateSuru_cats v)
    refine ⟨fs, by rw [conjugateIrregular, htype]; simpa [hsub] using hfs, ?_⟩
    have hfs2 : pushForms [
        ("dictionary", p ++ "する", none),
        ("te", p ++ "して", none),
        ("masu", p ++ "します", none),
        ("masen", p ++ "しません", none),
        ("mashita", p ++ "しました", none),
        ("masen-deshita", p ++ "しませんでした", none),
        ("nai", p ++ "しない", none),
        ("nakatta", p ++ "しなかった", none),
        ("ta", p ++ "した", none),
        ("volitional-plain", p ++ "しよう", none),
        ("volitional-polite", p ++ "しましょう", none),
        ("potential-plain", p ++ "できる", none),
        ("potential-polite", p ++ "できます", none),
        ("potential-negative", p ++ "できない", none),
        ("passive-plain", p ++ "される", none),
        ("passive-polite", p ++ "されます", none),
        ("causative-plain", p ++ "させる", none),
        ("causative-polite", p ++ "させます", none),
        ("causative-passive-plain", p ++ "させられる", none),
        ("causative-passive-polite", p ++ "させられます", none),
        ("imperative-plain", p ++ "しろ", none),
        ("imperative-polite", p ++ "してください", none),
        ("imperative-negative", p ++ "するな", none),
        ("conditional-ba", p ++ "すれば", none),
        ("conditional-tara", p ++ "したら", none),
        ("conditional-nara", p ++ "するなら", none),
        ("tai", p ++ "したい", none),
        ("takunai", p ++ "したくない", none),
        ("takatta", p ++ "したかった", none),
        ("takunakatta", p ++ "したくなかった", none),
        ("progressive-present", p ++ "している", none),
        ("progressive-past", p ++ "していた", none),
        ("honorific-respectful", "お" ++ p ++ "しになる", none),
        ("honorific-humble", "お" ++ p ++ "しする", none)] = some fs := by
      rw [← hfs]
      simp only [conjugateSuru, hp, Option.getD_some]
    intro f hf
    refine pushForms_members
      (P := fun f => p.data <:+: f.hiragana.data ∧ p.data <:+: f.kanji.data ∧
        (f.category = .honorific → ("お" ++ p).data <+: f.hiragana.data))
      hfs2 ?_ f hf
    intro e he f0 hf0
    simp only [List.mem_cons, List.not_mem_nil, or_false] at he
    rcases he with rfl|rfl|rfl|rfl|rfl|rfl|rfl|rfl|rfl|rfl|rfl|rfl|rfl|rfl|rfl|rfl|rfl|rfl|rfl|rfl|rfl|rfl|rfl|rfl|rfl|rfl|rfl|rfl|rfl|rfl|rfl|rfl|rfl|rfl <;>
      (simp at hf0
       subst hf0
       first
         | exact ⟨infix_left p _, infix_left p _, fun hc => nomatch hc⟩
         | exact ⟨infix_middle "お" p _, infix_middle "お" p _,
             fun hc => prefix_left ("お" ++ p) _⟩)
  · obtain ⟨fs, hfs, -⟩ := of_map_cats (conjugateKuru_cats v)
    refine ⟨fs, by rw [conjugateIrregular, htype]; simpa [hsub] using hfs, ?_⟩
    have hfs2 : pushForms [
        ("dictionary", p ++ "くる", some (p ++ "来る")),
        ("te", p ++ "きて", some (p ++ "来て")),
        ("masu", p ++ "きます", some (p ++ "来ます")),
        ("masen", p ++ "きません", some (p ++ "来ません")),
        ("mashita", p ++ "きました", some (p ++ "来ました")),
        ("masen-deshita", p ++ "きませんでした", some (p ++ "来ませんでした")),
        ("nai", p ++ "こない", some (p ++ "来ない")),
        ("nakatta", p ++ "こなかった", some (p ++ "来なかった")),
        ("ta", p ++ "きた", some (p ++ "来た")),
        ("volitional-plain", p ++ "こよう", some (p ++ "来よう")),
        ("volitional-polite", p ++ "きましょう", some (p ++ "来ましょう")),
        ("potential-plain", p ++ "こられる", some (p ++ "来られる")),
        ("potential-polite", p ++ "こられます", some (p ++ "来られます")),
        ("potential-negative", p ++ "こられない", some (p ++ "来られない")),
        ("passive-plain", p ++ "こられる", some (p ++ "来られる")),
        ("passive-polite", p ++ "こられます", some (p ++ "来られます")),
        ("causative-plain", p ++ "こさせる", some (p ++ "来させる")),
        ("causative-polite", p ++ "こさせます", some (p ++ "来させます")),
        ("causative-passive-plain", p ++ "こさせられる", some (p ++ "来させられる")),
        ("causative-passive-polite", p ++ "こさせられます", some (p ++ "来させられます")),
        ("imperative-plain", p ++ "こい", some (p ++ "来い")),
        ("imperative-polite", p ++ "きてください", some (p ++ "来てください")),
        ("imperative-negative", p ++ "くるな", some (p ++ "来るな")),
        ("conditional-ba", p ++ "くれば", some (p ++ "来れば")),
        ("conditional-tara", p ++ "きたら", some (p ++ "来たら")),
        ("conditional-nara", p ++ "くるなら", some (p ++ "来るなら")),
        ("tai", p ++ "きたい", some (p ++ "来たい")),
        ("takunai", p ++ "きたくない", some (p ++ "来たくない")),
        ("takatta", p ++ "きたかった", some (p ++ "来たかった")),
        ("takunakatta", p ++ "きたくなかった", some (p ++ "来たくなかった")),
        ("progressive-present", p ++ "きている", some (p ++ "来ている")),
        ("progressive-past", p ++ "きていた", some (p ++ "来ていた")),
        ("honorific-respectful", "お" ++ p ++ "きになる", some ("お" ++ p ++ "来になる")),
        ("honorific-humble", "お" ++ p ++ "きする", some ("お" ++ p ++ "来する"))] = some fs := by
      rw [← hfs]
      simp only [conjugateKuru, hp, Option.getD_some]
    intro f hf
    refine pushForms_members
      (P := fun f => p.data <:+: f.hiragana.data ∧ p.data <:+: f.kanji.data ∧
        (f.category = .honorific → ("お" ++ p).data <+: f.hiragana.data))
      hfs2 ?_ f hf
    intro e he f0 hf0
    simp only [List.mem_cons, List.not_mem_nil, or_false] at he
    rcases he with rfl|rfl|rfl|rfl|rfl|rfl|rfl|rfl|rfl|rfl|rfl|rfl|rfl|rfl|rfl|rfl|rfl|rfl|rfl|rfl|rfl|rfl|rfl|rfl|rfl|rfl|rfl|rfl|rfl|rfl|rfl|rfl|rfl|rfl <;>
      (simp at hf0
       subst hf0
       first
         | exact ⟨infix_left p _, infix_left p _, fun hc => nomatch hc⟩
         | exact ⟨infix_middle "お" p _, infix_middle "お" p _,
             fun hc => prefix_left ("お" ++ p) _⟩)
  · rw [hcp] at hp
    exact absurd hp (by simp)
  · rw [hcp] at hp
    exact absurd hp (by simp)
  · rw [hcp] at hp
    exact absurd hp (by simp)

/-- Sound-change rows of the Godan ending table, per terminal character. -/
theorem godan_table_facts {e : String} {m : GodanConjugationMap}
    (hm : GODAN_ENDINGS e = some m) :
    ((e = "う" ∨ e = "つ" ∨ e = "る") → m.te = "って" ∧ m.ta = "った") ∧
    ((e = "む" ∨ e = "ぶ" ∨ e = "ぬ") → m.te = "んで" ∧ m.ta = "んだ") ∧
    (e = "く" → m.te = "いて" ∧ m.ta = "いた") ∧
    (e = "ぐ" → m.te = "いで" ∧ m.ta = "いだ") ∧
    (e = "す" → m.te = "して" ∧ m.ta = "した") := by
  have hmem := table_lookup_mem (h := hm)
  have hall : ∀ p ∈ GODAN_ENDINGS_TABLE,
      ((p.1 = "う" ∨ p.1 = "つ" ∨ p.1 = "る") → p.2.te = "って" ∧ p.2.ta = "った") ∧
      ((p.1 = "む" ∨ p.1 = "ぶ" ∨ p.1 = "ぬ") → p.2.te = "んで" ∧ p.2.ta = "んだ") ∧
      (p.1 = "く" → p.2.te = "いて" ∧ p.2.ta = "いた") ∧
      (p.1 = "ぐ" → p.2.te = "いで" ∧ p.2.ta = "いだ") ∧
      (p.1 = "す" → p.2.te = "して" ∧ p.2.ta = "した") := by decide
  exact hall (e, m) hmem

/-- Classification of 行く (kanji spelling). -/
def ikuKanjiInfo : VerbInfo :=
  { dictionaryForm := "行く", reading := "行く",
    romaji := hiraganaToRomaji "行く", type := .irregular,
    stem := "行", ending := "く", irregularType := some .iku }

/-- Hypothetical Godan-typed verb info for 行く, used to compare the
hard-coded 行く table with the Godan engine's output. -/
def ikuGodanKanji : VerbInfo :=
  { dictionaryForm := "行く", reading := "行く",
    romaji := hiraganaToRomaji "行く", type := .godan,
    stem := "行", ending := "く" }

/-- Hypothetical Godan-typed verb info for いく (kana spelling). -/
def ikuGodanKana : VerbInfo :=
  { dictionaryForm := "いく", reading := "いく",
    romaji := hiraganaToRomaji "いく", type := .godan,
    stem := "い", ending := "く" }

/-- C1: for every verb classified as Godan, the te and ta forms are the stem
plus the euphonic suffix that the ending table assigns to the terminal
character (って/った for う・つ・る, んで/んだ for む・ぶ・ぬ, いて/いた for
く, いで/いだ for ぐ, して/した for す), both as computed by the helpers and
as emitted in the generated form list; and the go-irregular verb 行く/いく,
despite its く terminal, yields the connective 行って and past 行った (not
the regular 行いて), while its full 34-form table coincides form-by-form
with what the Godan engine (with its 行く te/ta override) produces for the
same verb. -/
theorem godan_te_ta_sound_changes :
    (∀ s v, classifyVerb s = .ok v → v.type = .godan →
      ∃ m, GODAN_ENDINGS v.ending = some m ∧
        getGodanTeForm v = some (v.stem ++ m.te) ∧
        getGodanTaForm v = some (v.stem ++ m.ta) ∧
        (conjugateGodan v).map (fun fs =>
          (fs.find? (fun f => f.id == "te")).map (fun f => f.hiragana))
          = some (some (v.stem ++ m.te)) ∧
        (conjugateGodan v).map (fun fs =>
          (fs.find? (fun f => f.id == "ta")).map (fun f => f.hiragana))
          = some (some (v.stem ++ m.ta)) ∧
        ((v.ending = "う" ∨ v.ending = "つ" ∨ v.ending = "る") →
          m.te = "って" ∧ m.ta = "った") ∧
        ((v.ending = "む" ∨ v.ending = "ぶ" ∨ v.ending = "ぬ") →
          m.te = "んで" ∧ m.ta = "んだ") ∧
        (v.ending = "く" → m.te = "いて" ∧ m.ta = "いた") ∧
        (v.ending = "ぐ" → m.te = "いで" ∧ m.ta = "いだ") ∧
        (v.ending = "す" → m.te = "して" ∧ m.ta = "した")) ∧
    classifyVerb "行く" = .ok ikuKanjiInfo ∧
    (conjugateIrregular ikuKanjiInfo).map (fun fs =>
      (fs.find? (fun f => f.id == "te")).map (fun f => (f.hiragana, f.kanji)))
      = some (some ("いって", "行って")) ∧
    (conjugateIrregular ikuKanjiInfo).map (fun fs =>
      (fs.find? (fun f => f.id == "ta")).map (fun f => (f.hiragana, f.kanji)))
      = some (some ("いった", "行った")) ∧
    ("行って" : String) ≠ "行" ++ "いて" ∧
    (conjugateIrregular ikuKanjiInfo).map (fun fs => fs.map (fun f => f.id))
      = (conjugateGodan ikuGodanKanji).map (fun fs => fs.map (fun f => f.id)) ∧
    (conjugateIrregular ikuKanjiInfo).map (fun fs => fs.map (fun f => f.kanji))
      = (conjugateGodan ikuGodanKanji).map (fun fs => fs.map (fun f => f.hiragana)) ∧
    (conjugateIrregular ikuKanjiInfo).map (fun fs => fs.map (fun f => f.hiragana))
      = (conjugateGodan ikuGodanKana).map (fun fs => fs.map (fun f => f.hiragana)) := by
  refine ⟨?_, rfl, rfl, rfl, by decide, rfl, rfl, rfl⟩
  intro s v hcls hty
  obtain ⟨-, -, hdict, -, -, hbr⟩ := classifyVerb_ok_shape hcls
  rcases hbr with ⟨_, -, htype, -, -, -, -⟩ | ⟨_, -, htype, -, -, -, -⟩ |
      ⟨t, -, htype, -, -, -, -⟩ | ⟨-, htype, -, -, -, -⟩ |
      ⟨hgod, hirrnone, -, hsubnone, -, hend, -⟩
  · rw [hty] at htype; exact absurd htype (by decide)
  · rw [hty] at htype; exact absurd htype (by decide)
  · rw [hty] at htype; exact absurd htype (by decide)
  · rw [hty] at htype; exact absurd htype (by decide)
  · have hmem : v.ending ∈ GODAN_ENDING_CHARS := by
      rw [hend]
      exact stringContains_iff.mp (by rwa [isGodanVerb] at hgod)
    obtain ⟨m, hm⟩ := GODAN_ENDINGS_isSome_of_mem hmem
    have h1 : v.dictionaryForm ≠ "行く" := by
      intro heq
      rw [hdict] at heq
      rw [heq] at hirrnone
      exact absurd hirrnone (by decide)
    have h2 : v.dictionaryForm ≠ "いく" := by
      intro heq
      rw [hdict] at heq
      rw [heq] at hirrnone
      exact absurd hirrnone (by decide)
    have hik : isIkuVerb v = false := by
      simp [isIkuVerb, h1, h2, hsubnone]
    obtain ⟨t1, t2, t3, t4, t5⟩ := godan_table_facts hm
    refine ⟨m, hm, ?_, ?_, ?_, ?_, t1, t2, t3, t4, t5⟩
    · simp [getGodanTeForm, hik, getGodanStem, hm, GodanConjugationMap.get]
    · simp [getGodanTaForm, hik, getGodanStem, hm, GodanConjugationMap.get]
    · simp [conjugateGodan, hty, pushForms, getGodanTeForm, getGodanTaForm,
        getGodanStem, hm, hik, GodanConjugationMap.get]
    · simp [conjugateGodan, hty, pushForms, getGodanTeForm, getGodanTaForm,
        getGodanStem, hm, hik, GodanConjugationMap.get]

/-- Classification of かく, for the C1 witness. -/
def kakuInfo : VerbInfo :=
  { dictionaryForm := "かく", reading := "かく",
    romaji := hiraganaToRomaji "かく", type := .godan,
    stem := "か", ending := "く" }

/-- Witness for C1 at the ku-terminal Godan verb かく. -/
theorem godan_te_ta_sound_changes_witness :
    ∃ m, GODAN_ENDINGS "く" = some m ∧
      getGodanTeForm kakuInfo = some ("か" ++ m.te) ∧ m.te = "いて" := by
  obtain ⟨m, hm, hte, -, -, -, -, -, hku, -, -⟩ :=
    godan_te_ta_sound_changes.1 "かく" kakuInfo rfl rfl
  exact ⟨m, hm, hte, (hku rfl).1⟩

/-- Witness for C4 at the compound verb 勉強する. -/
theorem compound_prefix_preserved_witness :
    ∃ fs, conjugateIrregular
        { dictionaryForm := "勉強する", reading := "勉強する",
          romaji := hiraganaToRomaji "勉強する", type := .irregular,
          stem := "勉強", ending := "する", irregularType := some .suru,
          compoundPrefix := some "勉強" } = some fs ∧
      ∀ f ∈ fs, ("勉強" : String).data <:+: f.hiragana.data ∧
        ("勉強" : String).data <:+: f.kanji.data ∧
        (f.category = .honorific →
          (("お" : String) ++ "勉強").data <+: f.hiragana.data) :=
  compound_prefix_preserved "勉強する"
    { dictionaryForm := "勉強する", reading := "勉強する",
      romaji := hiraganaToRomaji "勉強する", type := .irregular,
      stem := "勉強", ending := "する", irregularType := some .suru,
      compoundPrefix := some "勉強" } "勉強" rfl rfl

/-- C10: for every input that passes the facade's validation, classification
succeeds exactly when the trimmed input's final character is one of the nine
Godan terminal kana (う く ぐ す つ ぬ ぶ む る); equivalently, the facade
returns the `UNKNOWN_VERB` error exactly when the final character lies
outside that set. -/
theorem classification_iff_godan_terminal (s : String)
    (hval : validateInput s = none) :
    ((∃ v, classifyVerb s = .ok v) ↔
      getLastChar (jsTrim s) ∈ GODAN_ENDING_CHARS) ∧
    (∀ now, (∃ e, conjugate s now = .error e ∧ e.code = .UNKNOWN_VERB) ↔
      getLastChar (jsTrim s) ∉ GODAN_ENDING_CHARS) := by
  obtain ⟨hne, hjap⟩ := validateInput_none_elim hval
  have hA : ∀ v, classifyVerb s = .ok v →
      getLastChar (jsTrim s) ∈ GODAN_ENDING_CHARS := by
    intro v hv
    obtain ⟨-, -, -, -, -, hbr⟩ := classifyVerb_ok_shape hv
    rcases hbr with ⟨pfx, hdet, -, -, -, -, -⟩ | ⟨pfx, hdet, -, -, -, -, -⟩ |
        ⟨t, hirr, -, -, -, -, -⟩ | ⟨hich, -, -, -, -, -⟩ | ⟨hgod, -, -, -, -, -, -⟩
    · rw [findCompoundSuffix_lastChar SURU_COMPOUND_SUFFIXES
        (by decide) hdet]
      decide
    · rw [findCompoundSuffix_lastChar KURU_COMPOUND_SUFFIXES
        (by decide) hdet]
      decide
    · rcases IRREGULAR_VERBS_lastChar hirr with hl | hl <;> rw [hl] <;> decide
    · rw [looksLikeIchidan_lastChar hich]
      decide
    · exact stringContains_iff.mp (by rwa [isGodanVerb] at hgod)
  have hB : getLastChar (jsTrim s) ∈ GODAN_ENDING_CHARS →
      ∃ v, classifyVerb s = .ok v := by
    intro hmem
    cases hdet1 : detectSuruCompound (jsTrim s) with
    | some pfx =>
      refine ⟨{ dictionaryForm := jsTrim s, reading := jsTrim s,
                romaji := hiraganaToRomaji (jsTrim s), type := .irregular,
                stem := pfx, ending := jsDropChars (jsTrim s) pfx.data.length,
                irregularType := some .suru, compoundPrefix := some pfx }, ?_⟩
      simp [classifyVerb, hne, hjap, hdet1]
    | none =>
      cases hdet2 : detectKuruCompound (jsTrim s) with
      | some pfx =>
        refine ⟨{ dictionaryForm := jsTrim s, reading := jsTrim s,
                  romaji := hiraganaToRomaji (jsTrim s), type := .irregular,
                  stem := pfx, ending := jsDropChars (jsTrim s) pfx.data.length,
                  irregularType := some .kuru, compoundPrefix := some pfx }, ?_⟩
        simp [classifyVerb, hne, hjap, hdet1, hdet2]
      | none =>
        cases hirr : IRREGULAR_VERBS (jsTrim s) with
        | some t =>
          refine ⟨{ dictionaryForm := jsTrim s, reading := jsTrim s,
                    romaji := hiraganaToRomaji (jsTrim s), type := .irregular,
                    stem := getStem (jsTrim s), ending := getLastChar (jsTrim s),
                    irregularType := some t, compoundPrefix := none }, ?_⟩
          simp [classifyVerb, hne, hjap, hdet1, hdet2, getIrregularType, hirr]
        | none =>
          by_cases hich :
              (looksLikeIchidan (jsTrim s) && isActuallyIchidan (jsTrim s)) = true
          · refine ⟨{ dictionaryForm := jsTrim s, reading := jsTrim s,
                      romaji := hiraganaToRomaji (jsTrim s), type := .ichidan,
                      stem := getStem (jsTrim s), ending := "る",
                      irregularType := none, compoundPrefix := none }, ?_⟩
            simp [classifyVerb, hne, hjap, hdet1, hdet2, getIrregularType,
              hirr, hich]
          · have hgod : isGodanVerb (jsTrim s) = true := by
              rw [isGodanVerb]
              exact stringContains_iff.mpr hmem
            refine ⟨{ dictionaryForm := jsTrim s, reading := jsTrim s,
                      romaji := hiraganaToRomaji (jsTrim s), type := .godan,
                      stem := getStem (jsTrim s), ending := getLastChar (jsTrim s),
                      irregularType := none, compoundPrefix := none }, ?_⟩
            simp [classifyVerb, hne, hjap, hdet1, hdet2, getIrregularType,
              hirr, hich, hgod]
  have hC : ∀ now : Nat, getLastChar (jsTrim s) ∈ GODAN_ENDING_CHARS →
      ∃ r, conjugate s now = .ok r := by
    intro now hmem
    obtain ⟨v, hv⟩ := hB hmem
    obtain ⟨fs, hgen, -⟩ := generator_succeeds hv
    exact ⟨_, conjugate_ok_intro now hval hv hgen⟩
  have hD : getLastChar (jsTrim s) ∉ GODAN_ENDING_CHARS →
      classifyVerb s = .error
        { code := .UNKNOWN_VERB,
          message := "This verb is not recognized. Please check the spelling or try the dictionary form" } := by
    intro hmem
    have hdet1 : detectSuruCompound (jsTrim s) = none := by
      cases hd : detectSuruCompound (jsTrim s) with
      | none => rfl
      | some pfx =>
        exfalso
        apply hmem
        rw [findCompoundSuffix_lastChar SURU_COMPOUND_SUFFIXES
          (by decide) hd]
        decide
    have hdet2 : detectKuruCompound (jsTrim s) = none := by
      cases hd : detectKuruCompound (jsTrim s) with
      | none => rfl
      | some pfx =>
        exfalso
        apply hmem
        rw [findCompoundSuffix_lastChar KURU_COMPOUND_SUFFIXES
          (by decide) hd]
        decide
    have hirr : IRREGULAR_VERBS (jsTrim s) = none := by
      cases hd : IRREGULAR_VERBS (jsTrim s) with
      | none => rfl
      | some t =>
        exfalso
        apply hmem
        rcases IRREGULAR_VERBS_lastChar hd with hl | hl <;> rw [hl] <;> decide
    have hich : looksLikeIchidan (jsTrim s) = false := by
      cases hd : looksLikeIchidan (jsTrim s) with
      | false => rfl
      | true =>
        exfalso
        apply hmem
        rw [looksLikeIchidan_lastChar hd]
        decide
    have hgod : isGodanVerb (jsTrim s) = false := by
      rw [isGodanVerb]
      cases hc : GODAN_ENDING_CHARS.contains (getLastChar (jsTrim s)) with
      | false => rfl
      | true => exact absurd (stringContains_iff.mp hc) hmem
    simp [classifyVerb, hne, hjap, hdet1, hdet2, getIrregularType, hirr,
      hich, hgod]
  refine ⟨⟨fun hv => hA hv.choose hv.choose_spec, hB⟩, ?_⟩
  intro now
  constructor
  · rintro ⟨e, he, hcode⟩
    intro hmem
    obtain ⟨r, hr⟩ := hC now hmem
    rw [hr] at he
    exact absurd he (by simp)
  · intro hmem
    exact ⟨_, conjugate_classify_error now hval (hD hmem), rfl⟩

/-- Witness for C10: たべる (terminal る) classifies, まぼぽ (terminal ぽ,
outside the nine) is rejected as an unknown verb. -/
theorem classification_iff_godan_terminal_witness :
    (∃ v, classifyVerb "たべる" = .ok v) ∧
    (∃ e, conjugate "まぼぽ" 0 = .error e ∧ e.code = .UNKNOWN_VERB) :=
  ⟨(classification_iff_godan_terminal "たべる" rfl).1.mpr (by decide),
   ((classification_iff_godan_terminal "まぼぽ" rfl).2 0).mpr (by decide)⟩

end KanaDojo
